import Mathlib

/-!
# GATT bearer of the mesh stack: segmentation, reassembly and send arbitration

A shallow embedding of `src/ble/mesh/gatt_bearer.c`.  The file-scoped variables of the
C file become the fields of `Bearer`; every function becomes a pure function from a
`Bearer` to an `Outcome`: the new `Bearer` with the list of calls made to the
collaborators (`Event`), or the `Fault` at which the behaviour of the C code stops being
defined.  Machine integers are natural numbers or integers reduced explicitly where
the C code stores them in a narrower type.
-/

namespace GattBearer

/-! ## Constants -/

/-- Constants used by `gatt_bearer.c` whose definitions live in headers that are not part
of the file: the size of the shared buffer, the default ATT MTU, the invalid connection
handle, the two event codes used by the scheduler, and the width of `size_t`. -/
structure Platform where
  MESH_PROV_MAX_PROXY_PDU : Nat
  ATT_DEFAULT_MTU : Nat
  HCI_CON_HANDLE_INVALID : Nat
  HCI_EVENT_MESH_META : Nat
  MESH_SUBEVENT_CAN_SEND_NOW : Nat
  SIZE_BITS : Nat
deriving DecidableEq

/-- The platform is well formed when the buffer size fits the 16-bit offsets kept by the
bearer, `size_t` has at least 32 bits, and the invalid handle is a 16-bit value. -/
def Platform.WF (k : Platform) : Prop :=
  k.MESH_PROV_MAX_PROXY_PDU ≤ 65535 ∧ 32 ≤ k.SIZE_BITS ∧ k.HCI_CON_HANDLE_INVALID ≤ 65535

instance (k : Platform) : Decidable k.WF := by
  unfold Platform.WF; infer_instance

/-- The values used by the stack on a 32-bit target. -/
def stdPlatform : Platform :=
  { MESH_PROV_MAX_PROXY_PDU := 66
    ATT_DEFAULT_MTU := 23
    HCI_CON_HANDLE_INVALID := 0xffff
    HCI_EVENT_MESH_META := 0xF5
    MESH_SUBEVENT_CAN_SEND_NOW := 0x01
    SIZE_BITS := 32 }

/-- `#define NUM_TYPES 3`. -/
def NUM_TYPES : Nat := 3

/-- `message_type_id_t`: `MESH_MESSAGE_ID`. -/
def MESH_MESSAGE_ID : Nat := 0
/-- `message_type_id_t`: `MESH_BEACON_ID`. -/
def MESH_BEACON_ID : Nat := 1
/-- `message_type_id_t`: `PB_ADV_ID`. -/
def PB_ADV_ID : Nat := 2

/-- Modelled from the spec: the enumeration `mesh_msg_sar_field_t` is declared in a header
outside the file; section 6 gives `0=CompleteMessage`. -/
def MESH_MSG_SAR_FIELD_COMPLETE_MSG : Nat := 0
/-- Modelled from the spec: `mesh_msg_sar_field_t`, `1=FirstSegment`. -/
def MESH_MSG_SAR_FIELD_FIRST_SEGMENT : Nat := 1
/-- Modelled from the spec: `mesh_msg_sar_field_t`, `2=Continuation`. -/
def MESH_MSG_SAR_FIELD_CONTINUE : Nat := 2
/-- Modelled from the spec: `mesh_msg_sar_field_t`, `3=LastSegment`. -/
def MESH_MSG_SAR_FIELD_LAST_SEGMENT : Nat := 3

/-- Modelled from the spec: the enumeration `mesh_msg_type_t` is declared in a header
outside the file; section 8 gives the header of a `NetworkPDU` frame as `0b00_000000`,
so the type value is 0 (it also indexes `client_callbacks` at `MESH_MESSAGE_ID`). -/
def MESH_MSG_TYPE_NETWORK_PDU : Nat := 0
/-- Modelled from the spec: `mesh_msg_type_t`, the `Beacon` type, the value after
`NetworkPDU`; it indexes `client_callbacks` at `MESH_BEACON_ID`. -/
def MESH_MSG_TYPE_BEACON : Nat := 1

/-! ## State -/

/-- The value of the pointer `proxy_pdu`: null, memory owned by the caller (with its
contents), or the shared buffer `sar_buffer` itself (which is what `packet_handler` passes
when it hands a reassembled message on). -/
inductive PduPtr where
  | null
  | caller (mem : List Nat)
  | sar
deriving DecidableEq

/-- The file-scoped variables of `gatt_bearer.c`.  `client_callbacks` records, per class,
whether a handler is registered (non-null).  `sar_buffer` is the union of the reassembly
and the segmentation buffer: one byte array of `MESH_PROV_MAX_PROXY_PDU` bytes.  The
variables declared after the union lie behind it in memory, so a store past the end of
the array does not stay in the array: it is a `Fault`. -/
structure Bearer where
  client_callbacks : List Bool
  request_can_send_now : List Nat
  last_sender : Nat
  sar_buffer : List Nat
  proxy_pdu : PduPtr
  proxy_pdu_size : Nat
  outgoing_ready : Nat
  reassembly_offset : Nat
  segmentation_offset : Nat
  segmentation_state : Nat
  msg_type : Nat
  gatt_bearer_mtu : Nat
  gatt_bearer_con_handle : Nat
deriving DecidableEq

/-- The calls the bearer makes to its collaborators, in order.
`send_proxy_pdu` is `mesh_proxy_service_server_send_proxy_pdu(con_handle, buffer, len)`
with the `len` bytes handed over; `request_can_send_now` is
`mesh_proxy_service_server_request_can_send_now(con_handle)`; `client_callback` is the call
of `client_callbacks[idx]` with the three event bytes; `send_mesh_message` and
`send_mesh_beacon` record the call `gatt_bearer_send_mesh_message(reassembly_buffer,
reassembly_offset)` (resp. `..._beacon`) that `packet_handler` makes for a finished
message, with the `reassembly_offset` bytes of the buffer it passes. -/
inductive Event where
  | send_proxy_pdu (con_handle : Nat) (frame : List Nat)
  | request_can_send_now (con_handle : Nat)
  | client_callback (idx : Nat) (event : List Nat)
  | send_mesh_message (data : List Nat)
  | send_mesh_beacon (data : List Nat)
deriving DecidableEq

/-- The two ways in which the C code leaves defined behaviour: a `memcpy` or an assignment
that stores past the end of `sar_buffer` (into the variables behind the union), and a call
through an entry of `client_callbacks` that is null. -/
inductive Fault where
  | buffer_overrun
  | null_handler
deriving DecidableEq

/-- The outcome of running a function of the bearer: its result, or the fault at which the
program stops having a defined state. -/
inductive Outcome (α : Type) where
  | ok (val : α)
  | fault (f : Fault)
deriving DecidableEq

/-- Continue with `f` after a step that did not fault. -/
def Outcome.andThen {α β : Type} (r : Outcome α) (f : α → Outcome β) : Outcome β :=
  match r with
  | Outcome.ok a => f a
  | Outcome.fault e => Outcome.fault e

/-- Apply `f` to the result of a step that did not fault. -/
def Outcome.map {α β : Type} (f : α → β) (r : Outcome α) : Outcome β :=
  match r with
  | Outcome.ok a => Outcome.ok (f a)
  | Outcome.fault e => Outcome.fault e

/-- The state at program start: every static variable is zero. -/
def Bearer.init (k : Platform) : Bearer :=
  { client_callbacks := List.replicate NUM_TYPES false
    request_can_send_now := List.replicate NUM_TYPES 0
    last_sender := 0
    sar_buffer := List.replicate k.MESH_PROV_MAX_PROXY_PDU 0
    proxy_pdu := PduPtr.null
    proxy_pdu_size := 0
    outgoing_ready := 0
    reassembly_offset := 0
    segmentation_offset := 0
    segmentation_state := 0
    msg_type := 0
    gatt_bearer_mtu := 0
    gatt_bearer_con_handle := 0 }

/-! ## Memory and integer helpers -/

/-- The byte `mem[i]` (a `uint8_t`). -/
def byteAt (mem : List Nat) (i : Nat) : Nat := mem.getD i 0 % 256

/-- The `n` bytes of `mem` from offset `off`; bytes outside the list read as 0. -/
def readBytes (mem : List Nat) (off n : Nat) : List Nat :=
  let d := (mem.drop off).take n
  d ++ List.replicate (n - d.length) 0

/-- The memory `mem` with `data` written from offset `off`; a list shorter than
`off + data.length` is padded with zeros first. -/
def writeBytes (mem : List Nat) (off : Nat) (data : List Nat) : List Nat :=
  if data.length = 0 then mem
  else
    let m := mem ++ List.replicate (off + data.length - mem.length) 0
    m.take off ++ data ++ m.drop (off + data.length)

/-- A store of `data` into `sar_buffer` from offset `off` (the destination side of a
`memcpy`, or an assignment to one element).  The array has `MESH_PROV_MAX_PROXY_PDU`
bytes: a non-empty store that ends behind it is the fault `buffer_overrun`. -/
def store (k : Platform) (mem : List Nat) (off : Nat) (data : List Nat) : Outcome (List Nat) :=
  if data.length = 0 then Outcome.ok mem
  else if off + data.length ≤ k.MESH_PROV_MAX_PROXY_PDU then Outcome.ok (writeBytes mem off data)
  else Outcome.fault Fault.buffer_overrun

/-- Conversion of a C `int` value to `size_t`. -/
def to_size_t (k : Platform) (x : Int) : Nat := (x % (2 ^ k.SIZE_BITS : Int)).toNat

/-- Conversion of a C `int` value to `uint32_t`. -/
def to_uint32 (x : Int) : Nat := (x % (2 ^ 32 : Int)).toNat

/-- Conversion of a C `int` value to `uint16_t`. -/
def to_uint16 (x : Int) : Nat := (x % (2 ^ 16 : Int)).toNat

/-- `uint32_t btstack_min(uint32_t a, uint32_t b)` from `btstack_util`. -/
def btstack_min (a b : Nat) : Nat := if a < b then a else b

/-- The memory a `PduPtr` points to, given the current contents of the shared buffer. -/
def PduPtr.deref (p : PduPtr) (sar : List Nat) : List Nat :=
  match p with
  | PduPtr.null => []
  | PduPtr.caller mem => mem
  | PduPtr.sar => sar

/-! ## Operations -/

/-- `gatt_bearer_emit_can_send_now`: the round-robin loop, `countdown` iterations left.
The class found pending has its flag cleared and its handler called through
`client_callbacks[last_sender]` (line 102); the pointer is not tested, so for a class
without a registered handler the call is the fault `null_handler`. -/
def gatt_bearer_emit_loop (k : Platform) (countdown : Nat) (s : Bearer) :
    Outcome (Bearer × List Event) :=
  match countdown with
  | 0 => Outcome.ok (s, [])
  | c + 1 =>
    let ls := if s.last_sender + 1 = NUM_TYPES then 0 else s.last_sender + 1
    let s1 := { s with last_sender := ls }
    if s1.request_can_send_now.getD ls 0 ≠ 0 then
      let s2 := { s1 with request_can_send_now := s1.request_can_send_now.set ls 0 }
      if s2.client_callbacks.getD ls false = false then Outcome.fault Fault.null_handler
      else
        Outcome.ok (s2,
          [Event.client_callback ls [k.HCI_EVENT_MESH_META, 1, k.MESH_SUBEVENT_CAN_SEND_NOW]])
    else gatt_bearer_emit_loop k c s1

/-- `gatt_bearer_emit_can_send_now`. -/
def gatt_bearer_emit_can_send_now (k : Platform) (s : Bearer) : Outcome (Bearer × List Event) :=
  gatt_bearer_emit_loop k NUM_TYPES s

/-- `gatt_bearer_request`. -/
def gatt_bearer_request (s : Bearer) (type_id : Nat) : Bearer × List Event :=
  ({ s with request_can_send_now := s.request_can_send_now.set type_id 1 },
    [Event.request_can_send_now s.gatt_bearer_con_handle])

/-- The length `pdu_segment_len` computed by `gatt_bearer_start_sending`:
`btstack_min(proxy_pdu_size - segmentation_offset, gatt_bearer_mtu)` stored in a
`uint16_t`. -/
def pdu_segment_len (s : Bearer) : Nat :=
  btstack_min (to_uint32 ((s.proxy_pdu_size : Int) - (s.segmentation_offset : Int)))
    s.gatt_bearer_mtu % 65536

/-- Lines 119-138 of `gatt_bearer_start_sending`, after the two stores have left `buf2` in
the segmentation buffer: the cursor advances, the first `len` bytes of the buffer are
handed to `mesh_proxy_service_server_send_proxy_pdu`, and the switch on the SAR state
ends the transfer or stores the next state and asks for another opportunity. -/
def start_sending_after_stores (s : Bearer) (con_handle : Nat) (buf2 : List Nat) (len : Nat) :
    Bearer × List Event :=
  let s1 := { s with sar_buffer := buf2
                     segmentation_offset := (s.segmentation_offset + len) % 65536 }
  let sent := Event.send_proxy_pdu con_handle (readBytes buf2 0 len)
  if s.segmentation_state = MESH_MSG_SAR_FIELD_COMPLETE_MSG
      ∨ s.segmentation_state = MESH_MSG_SAR_FIELD_LAST_SEGMENT then
    ({ s1 with outgoing_ready := 0 }, [sent])
  else if s.segmentation_state = MESH_MSG_SAR_FIELD_CONTINUE
      ∨ s.segmentation_state = MESH_MSG_SAR_FIELD_FIRST_SEGMENT then
    let next :=
      if (s1.proxy_pdu_size : Int) - (s1.segmentation_offset : Int) > (s1.gatt_bearer_mtu : Int)
      then MESH_MSG_SAR_FIELD_CONTINUE else MESH_MSG_SAR_FIELD_LAST_SEGMENT
    ({ s1 with segmentation_state := next }, [sent, Event.request_can_send_now con_handle])
  else (s1, [sent])

/-- `gatt_bearer_start_sending(con_handle)`.  The header byte is stored at index 0 of the
segmentation buffer (line 116), then `pdu_segment_len` bytes of the message are copied to
index 0 of the same buffer (line 118), and the first `pdu_segment_len` bytes of the buffer
are handed to `mesh_proxy_service_server_send_proxy_pdu`.  Nothing bounds
`pdu_segment_len` by the size of the buffer: a longer copy is the fault `buffer_overrun`.
When `proxy_pdu` is the shared buffer itself the source of the `memcpy` is read in full
before the destination is written. -/
def gatt_bearer_start_sending (k : Platform) (s : Bearer) (con_handle : Nat) :
    Outcome (Bearer × List Event) :=
  let header := ((s.segmentation_state <<< 6) ||| s.msg_type) % 256
  (store k s.sar_buffer 0 [header]).andThen fun buf1 =>
    let len := pdu_segment_len s
    let src := readBytes (s.proxy_pdu.deref buf1) s.segmentation_offset len
    (store k buf1 0 src).andThen fun buf2 =>
      Outcome.ok (start_sending_after_stores s con_handle buf2 len)

/-- What `gatt_bearer_start_sending` computes when its two stores lie inside the buffer:
the header byte at index 0, the `pdu_segment_len` message bytes over it from index 0, then
`start_sending_after_stores`. -/
def start_sending_in_bounds (s : Bearer) (con_handle : Nat) : Bearer × List Event :=
  let header := ((s.segmentation_state <<< 6) ||| s.msg_type) % 256
  let buf1 := writeBytes s.sar_buffer 0 [header]
  let len := pdu_segment_len s
  let src := readBytes (s.proxy_pdu.deref buf1) s.segmentation_offset len
  start_sending_after_stores s con_handle (writeBytes buf1 0 src) len

/-- The state `gatt_bearer_send_pdu` has built when it calls `gatt_bearer_start_sending`
(lines 270-280). -/
def gatt_bearer_send_pdu_setup (s : Bearer) (pdu : PduPtr) (size : Nat) : Bearer :=
  { s with proxy_pdu := pdu
           proxy_pdu_size := size
           segmentation_offset := 0
           segmentation_state :=
             if (size : Int) > (s.gatt_bearer_mtu : Int) - 1
             then MESH_MSG_SAR_FIELD_FIRST_SEGMENT else MESH_MSG_SAR_FIELD_COMPLETE_MSG
           outgoing_ready := 1 }

/-- `gatt_bearer_send_pdu(con_handle, pdu, size)`. -/
def gatt_bearer_send_pdu (k : Platform) (s : Bearer) (con_handle : Nat) (pdu : PduPtr)
    (size : Nat) : Outcome (Bearer × List Event) :=
  if pdu = PduPtr.null ∨ size = 0 then Outcome.ok (s, [])
  else if con_handle = k.HCI_CON_HANDLE_INVALID then Outcome.ok (s, [])
  else gatt_bearer_start_sending k (gatt_bearer_send_pdu_setup s pdu size) con_handle

/-- `gatt_bearer_send_mesh_message(data, data_len)`. -/
def gatt_bearer_send_mesh_message (k : Platform) (s : Bearer) (data : PduPtr) (data_len : Nat) :
    Outcome (Bearer × List Event) :=
  gatt_bearer_send_pdu k s s.gatt_bearer_con_handle data data_len

/-- `gatt_bearer_send_mesh_beacon(data, data_len)`. -/
def gatt_bearer_send_mesh_beacon (k : Platform) (s : Bearer) (data : PduPtr) (data_len : Nat) :
    Outcome (Bearer × List Event) :=
  gatt_bearer_send_pdu k s s.gatt_bearer_con_handle data data_len

/-- `gatt_bearer_register_for_mesh_message` with a non-null handler. -/
def gatt_bearer_register_for_mesh_message (s : Bearer) : Bearer :=
  { s with client_callbacks := s.client_callbacks.set MESH_MESSAGE_ID true }

/-- `gatt_bearer_register_for_mesh_beacon` with a non-null handler. -/
def gatt_bearer_register_for_mesh_beacon (s : Bearer) : Bearer :=
  { s with client_callbacks := s.client_callbacks.set MESH_BEACON_ID true }

/-- The capacity check of `packet_handler` (line 170):
`sizeof(sar_buffer.reassembly_buffer) - reassembly_offset < pdu_segment_len`, evaluated in
`size_t` after the usual conversions, with `pdu_segment_len = size - 1` a C `int`. -/
def sar_buffer_too_small (k : Platform) (s : Bearer) (size : Nat) : Bool :=
  decide (to_size_t k ((k.MESH_PROV_MAX_PROXY_PDU : Int) - (s.reassembly_offset : Int))
    < to_size_t k ((size : Int) - 1))

/-- The MTU update of `packet_handler` (lines 175-179): when the frame is longer than
`ATT_DEFAULT_MTU - 1` the stored MTU becomes what `att_server_get_mtu` returns (a
`uint16_t`). -/
def update_mtu (k : Platform) (s : Bearer) (size att_mtu : Nat) : Bearer :=
  if (size : Int) > (k.ATT_DEFAULT_MTU : Int) - 1
  then { s with gatt_bearer_mtu := att_mtu % 65536 } else s

/-- The hand-over at the end of the `PROVISIONING_DATA_PACKET` branch (lines 201-213):
the call of `gatt_bearer_send_mesh_message` or `gatt_bearer_send_mesh_beacon` with the
reassembly buffer and `reassembly_offset`. -/
def send_to_mesh_network (k : Platform) (s : Bearer) : Outcome (Bearer × List Event) :=
  if s.msg_type = MESH_MSG_TYPE_NETWORK_PDU then
    (gatt_bearer_send_mesh_message k s PduPtr.sar s.reassembly_offset).map fun r =>
      (r.1, Event.send_mesh_message (readBytes s.sar_buffer 0 s.reassembly_offset) :: r.2)
  else if s.msg_type = MESH_MSG_TYPE_BEACON then
    (gatt_bearer_send_mesh_beacon k s PduPtr.sar s.reassembly_offset).map fun r =>
      (r.1, Event.send_mesh_beacon (readBytes s.sar_buffer 0 s.reassembly_offset) :: r.2)
  else Outcome.ok (s, [])

/-- The `PROVISIONING_DATA_PACKET` branch of `packet_handler` (lines 152-214).  `packet` is
the memory at the pointer, `size` the `uint16_t` length argument, and `att_mtu` the value
`att_server_get_mtu(channel)` returns if it is asked.  The `memset` covers exactly the
array; each `memcpy` into the array is a `store`. -/
def packet_handler_data (k : Platform) (s : Bearer) (packet : List Nat) (size : Nat)
    (att_mtu : Nat) : Outcome (Bearer × List Event) :=
  let msg_sar_field := byteAt packet 0 >>> 6
  let s1 := { s with msg_type := byteAt packet 0 &&& 0x3F }
  if s1.msg_type = MESH_MSG_TYPE_NETWORK_PDU ∨ s1.msg_type = MESH_MSG_TYPE_BEACON then
    if s1.client_callbacks.getD s1.msg_type false = false then Outcome.ok (s1, [])
    else if sar_buffer_too_small k s1 size then Outcome.ok (s1, [])
    else
      let n : Int := (size : Int) - 1
      let s2 := update_mtu k s1 size att_mtu
      let payload := readBytes packet 1 (to_size_t k n)
      if msg_sar_field = MESH_MSG_SAR_FIELD_FIRST_SEGMENT then
        let zeroed := writeBytes s2.sar_buffer 0 (List.replicate k.MESH_PROV_MAX_PROXY_PDU 0)
        (store k zeroed 0 payload).andThen fun buf =>
          Outcome.ok ({ s2 with sar_buffer := buf, reassembly_offset := to_uint16 n }, [])
      else if msg_sar_field = MESH_MSG_SAR_FIELD_CONTINUE then
        (store k s2.sar_buffer s2.reassembly_offset payload).andThen fun buf =>
          Outcome.ok ({ s2 with sar_buffer := buf
                                reassembly_offset :=
                                  to_uint16 ((s2.reassembly_offset : Int) + n) }, [])
      else if msg_sar_field = MESH_MSG_SAR_FIELD_LAST_SEGMENT then
        (store k s2.sar_buffer s2.reassembly_offset payload).andThen fun buf =>
          send_to_mesh_network k { s2 with sar_buffer := buf, reassembly_offset := 0 }
      else if msg_sar_field = MESH_MSG_SAR_FIELD_COMPLETE_MSG then
        send_to_mesh_network k s2
      else Outcome.ok (s2, [])
  else Outcome.ok (s1, [])

/-- The packets `packet_handler` distinguishes.  An HCI event is given in decoded form
(the accessor functions of the event are declared outside the file): the two link events
carry the `pb_transport_cid` field, the can-send-now event the connection handle read at
offset 3. -/
inductive Packet where
  | PROVISIONING_DATA_PACKET (packet : List Nat) (size : Nat) (att_mtu : Nat)
  | MESH_PB_TRANSPORT_LINK_OPEN (cid : Nat)
  | MESH_PB_TRANSPORT_LINK_CLOSED (cid : Nat)
  | MESH_SUBEVENT_CAN_SEND_NOW (con_handle : Nat)
  | other
deriving DecidableEq

/-- `packet_handler(packet_type, channel, packet, size)`. -/
def packet_handler (k : Platform) (s : Bearer) (p : Packet) : Outcome (Bearer × List Event) :=
  match p with
  | Packet.PROVISIONING_DATA_PACKET packet size att_mtu => packet_handler_data k s packet size att_mtu
  | Packet.MESH_PB_TRANSPORT_LINK_OPEN cid =>
    Outcome.ok ({ s with gatt_bearer_mtu := k.ATT_DEFAULT_MTU, gatt_bearer_con_handle := cid }, [])
  | Packet.MESH_PB_TRANSPORT_LINK_CLOSED cid =>
    Outcome.ok ({ s with gatt_bearer_mtu := k.ATT_DEFAULT_MTU, gatt_bearer_con_handle := cid }, [])
  | Packet.MESH_SUBEVENT_CAN_SEND_NOW con_handle =>
    if con_handle = k.HCI_CON_HANDLE_INVALID then Outcome.ok (s, [])
    else if s.outgoing_ready = 0 then gatt_bearer_emit_can_send_now k s
    else gatt_bearer_start_sending k s con_handle
  | Packet.other => Outcome.ok (s, [])

/-! ## Runs -/

/-- Feed a list of packets to `packet_handler`, collecting the calls made; a fault ends
the run. -/
def run (k : Platform) (s : Bearer) (ps : List Packet) : Outcome (Bearer × List Event) :=
  match ps with
  | [] => Outcome.ok (s, [])
  | p :: rest =>
    (packet_handler k s p).andThen fun r =>
      (run k r.1 rest).map fun r2 => (r2.1, r.2 ++ r2.2)

/-- After a send has been started, call `gatt_bearer_start_sending` once for each send
opportunity the transfer has asked for, at most `fuel` times: while `outgoing_ready` is
set the transport answers the request with a can-send-now event for the same handle. -/
def drain (k : Platform) (fuel : Nat) (s : Bearer) (con_handle : Nat) :
    Outcome (Bearer × List Event) :=
  match fuel with
  | 0 => Outcome.ok (s, [])
  | f + 1 =>
    if s.outgoing_ready = 0 then Outcome.ok (s, [])
    else
      (gatt_bearer_start_sending k s con_handle).andThen fun r =>
        (drain k f r.1 con_handle).map fun r2 => (r2.1, r.2 ++ r2.2)

/-- The whole outbound transfer of one message: `gatt_bearer_send_pdu`, then the drain. -/
def send_all (k : Platform) (fuel : Nat) (s : Bearer) (con_handle : Nat) (pdu : PduPtr)
    (size : Nat) : Outcome (Bearer × List Event) :=
  (gatt_bearer_send_pdu k s con_handle pdu size).andThen fun r =>
    (drain k fuel r.1 con_handle).map fun r2 => (r2.1, r.2 ++ r2.2)

/-- The frames handed to the transport in a list of calls, in order. -/
def frames_of (evs : List Event) : List (List Nat) :=
  evs.filterMap fun e =>
    match e with
    | Event.send_proxy_pdu _ frame => some frame
    | _ => none

/-- The messages handed over by `packet_handler` in a list of calls, each with the type of
the hand-over function that was called. -/
def delivered_of (evs : List Event) : List (Nat × List Nat) :=
  evs.filterMap fun e =>
    match e with
    | Event.send_mesh_message data => some (MESH_MSG_TYPE_NETWORK_PDU, data)
    | Event.send_mesh_beacon data => some (MESH_MSG_TYPE_BEACON, data)
    | _ => none

/-- The number of further send opportunities asked of the transport in a list of calls. -/
def requests_of (evs : List Event) : Nat :=
  (evs.filter fun e =>
    match e with
    | Event.request_can_send_now _ => true
    | _ => false).length

/-- The frames of a sender, presented to a receiver as inbound data packets (the transport
reports the frame's own length as `size`; `att_mtu` is what the receiver's ATT server
reports). -/
def as_inbound (att_mtu : Nat) (frames : List (List Nat)) : List Packet :=
  frames.map fun f => Packet.PROVISIONING_DATA_PACKET f f.length att_mtu

/-! ## Predicates on states and packets -/

/-- The reassembly state respects the buffer: the offset is within the capacity and the
buffer has its `MESH_PROV_MAX_PROXY_PDU` bytes. -/
def reassembly_ok (k : Platform) (s : Bearer) : Prop :=
  s.reassembly_offset ≤ k.MESH_PROV_MAX_PROXY_PDU
    ∧ s.sar_buffer.length = k.MESH_PROV_MAX_PROXY_PDU

/-- An inbound data packet whose `size` argument is a `uint16_t` value. -/
def is_inbound_frame (p : Packet) : Prop :=
  match p with
  | Packet.PROVISIONING_DATA_PACKET _ size _ => size ≤ 65535
  | _ => False

instance (p : Packet) : Decidable (is_inbound_frame p) := by
  unfold is_inbound_frame; split <;> infer_instance

/-- The scheduler is idle and well formed: no transfer is active, `last_sender` indexes
one of the `NUM_TYPES` classes and there is one pending flag per class. -/
def sched_ok (s : Bearer) : Prop :=
  s.outgoing_ready = 0 ∧ s.last_sender < NUM_TYPES
    ∧ s.request_can_send_now.length = NUM_TYPES

instance (s : Bearer) : Decidable (sched_ok s) := by
  unfold sched_ok; infer_instance

/-- A transfer of the `L`-byte message at `pdu` is under way after its first segment: the
cursor is within the message, the transfer is active, and the SAR state is the one the
previous call stored for the remaining length. -/
def in_transfer (pdu : PduPtr) (L : Nat) (s : Bearer) : Prop :=
  s.proxy_pdu = pdu ∧ s.proxy_pdu_size = L
    ∧ s.segmentation_offset ≤ L ∧ s.outgoing_ready = 1
    ∧ s.segmentation_state
        = (if L - s.segmentation_offset > s.gatt_bearer_mtu
            then MESH_MSG_SAR_FIELD_CONTINUE else MESH_MSG_SAR_FIELD_LAST_SEGMENT)

/-! ## Header byte and scheduler runs -/

/-- The header byte built on line 116 of `gatt_bearer_start_sending`:
`(segmentation_state << 6) | msg_type`, stored in a `uint8_t`. -/
def header_encode (sar_field msg_type : Nat) : Nat := ((sar_field <<< 6) ||| msg_type) % 256

/-- The SAR field decoded on line 155 of `packet_handler`: `packet[pos] >> 6`. -/
def header_sar (byte : Nat) : Nat := byte >>> 6

/-- The message type decoded on line 156 of `packet_handler`: `packet[pos] & 0x3F`. -/
def header_type (byte : Nat) : Nat := byte &&& 0x3F

/-- The first class with its pending flag set, in the cyclic order that starts right after
`last`: the selection rule in the words of the specification, to be compared with the
loop of `gatt_bearer_emit_can_send_now`. -/
def spec_first_pending (flags : List Nat) (last : Nat) : Option Nat :=
  ((List.range NUM_TYPES).map fun i => (last + 1 + i) % NUM_TYPES).find?
    fun c => decide (flags.getD c 0 ≠ 0)

/-- Each class of `classes` asks to send: `gatt_bearer_request` for each, in order. -/
def request_all (s : Bearer) (classes : List Nat) : Bearer :=
  classes.foldl (fun st c => (gatt_bearer_request st c).1) s

/-- The classes whose handler is called in a list of calls, in order. -/
def grants_of (evs : List Event) : List Nat :=
  evs.filterMap fun e =>
    match e with
    | Event.client_callback idx _ => some idx
    | _ => none

/-- A run of `n` send opportunities: before each one every class of `classes` asks to send,
then the transport delivers a can-send-now event for `con_handle`.  The result is the list
of classes granted, in order; a fault ends the run. -/
def grant_run (k : Platform) (classes : List Nat) (con_handle : Nat) (n : Nat) (s : Bearer) :
    Outcome (List Nat) :=
  match n with
  | 0 => Outcome.ok []
  | m + 1 =>
    (packet_handler k (request_all s classes)
        (Packet.MESH_SUBEVENT_CAN_SEND_NOW con_handle)).andThen fun r =>
      (grant_run k classes con_handle m r.1).map fun g => grants_of r.2 ++ g

/-! ## Fixtures -/

/-- A sender: the initial state after a link-open event for connection 1, so the stored MTU
is the default `ATT_DEFAULT_MTU = 23` and the handle is valid. -/
def sender23 : Bearer :=
  { Bearer.init stdPlatform with gatt_bearer_mtu := 23, gatt_bearer_con_handle := 1 }

/-- A receiver: the initial state with a handler registered for mesh messages and for
mesh beacons. -/
def receiver0 : Bearer :=
  gatt_bearer_register_for_mesh_beacon
    (gatt_bearer_register_for_mesh_message (Bearer.init stdPlatform))

/-- A receiver after a link-open event for connection 1: both handlers registered, stored
MTU 23. -/
def receiver23 : Bearer :=
  { receiver0 with gatt_bearer_mtu := 23, gatt_bearer_con_handle := 1 }

/-- The receiver `receiver0` after the FirstSegment frame `[0x40, 10, 11]`: two bytes
buffered. -/
def receiver0_two : Bearer :=
  { receiver0 with sar_buffer := [10, 11] ++ List.replicate 64 0, reassembly_offset := 2 }

/-- The receiver `receiver0` after a FirstSegment frame with 66 payload bytes `9`: the
buffer is full and the stored MTU is the reported 23. -/
def receiver0_full : Bearer :=
  { receiver0 with sar_buffer := List.replicate 66 9, reassembly_offset := 66,
                   gatt_bearer_mtu := 23 }

/-- The receiver `receiver23` after the FirstSegment frame `[0x40, 10, 11]`. -/
def receiver23_two : Bearer :=
  { receiver23 with sar_buffer := [10, 11] ++ List.replicate 64 0, reassembly_offset := 2 }

/-- The receiver `receiver23` after a 23-byte FirstSegment frame for which the transport
reported the MTU 100: 22 bytes are buffered and the stored MTU is 100. -/
def receiver100 : Bearer :=
  { receiver23 with sar_buffer := List.replicate 22 9 ++ List.replicate 44 0,
                    reassembly_offset := 22, gatt_bearer_mtu := 100 }

/-- The sender `sender23` after the first segment of `msg60`: 23 bytes sent, state
Continuation. -/
def sender23_mid (mem : List Nat) : Bearer :=
  { sender23 with sar_buffer := mem.take 23 ++ List.replicate 43 0
                  proxy_pdu := PduPtr.caller mem
                  proxy_pdu_size := mem.length
                  outgoing_ready := 1
                  segmentation_offset := 23
                  segmentation_state := MESH_MSG_SAR_FIELD_CONTINUE }

/-- A FirstSegment frame of a NetworkPDU with the two payload bytes 10, 11. -/
def first2 : Packet := Packet.PROVISIONING_DATA_PACKET [0x40, 10, 11] 3 23

/-- A LastSegment frame of a NetworkPDU with the payload byte 12. -/
def last1 : Packet := Packet.PROVISIONING_DATA_PACKET [0xC0, 12] 2 23

/-- A CompleteMessage frame of a NetworkPDU with the payload bytes 7, 8, 9. -/
def complete3 : Packet := Packet.PROVISIONING_DATA_PACKET [0x00, 7, 8, 9] 4 23

/-- A FirstSegment frame of a NetworkPDU that fills the whole buffer: 66 payload bytes. -/
def first66 : Packet := Packet.PROVISIONING_DATA_PACKET (0x40 :: List.replicate 66 9) 67 23

/-- A FirstSegment frame of a NetworkPDU with the single payload byte 7. -/
def first1 : Packet := Packet.PROVISIONING_DATA_PACKET [0x40, 7] 2 23

/-- A Continuation frame of a NetworkPDU with 65 payload bytes. -/
def cont65 : Packet := Packet.PROVISIONING_DATA_PACKET (0x80 :: List.replicate 65 7) 66 23

/-- A FirstSegment frame of a NetworkPDU with 22 payload bytes: total length 23, one more
than `ATT_DEFAULT_MTU - 1`. -/
def first22 : List Nat := 0x40 :: List.replicate 22 9

/-- A ten-byte message. -/
def msg10 : List Nat := [0xA1, 0xA2, 0xA3, 0xA4, 0xA5, 0xA6, 0xA7, 0xA8, 0xA9, 0xAA]

/-- A thirty-byte message: the bytes 100, 101, ..., 129. -/
def msg30 : List Nat := (List.range 30).map (fun i => 100 + i)

/-- A 46-byte message: the bytes 100, 101, ..., 145. -/
def msg46 : List Nat := (List.range 46).map (fun i => 100 + i)

/-- A 60-byte message, three segments with MTU 23: the bytes 100, 101, ..., 159. -/
def msg60 : List Nat := (List.range 60).map (fun i => 100 + i)

/-- A 150-byte message: the bytes 1, 2, ..., 150. -/
def msg150 : List Nat := (List.range 150).map (fun i => 1 + i)

/-! ## Helper lemmas -/

set_option maxRecDepth 16384

@[simp] theorem Outcome.andThen_ok {α β : Type} (a : α) (f : α → Outcome β) :
    (Outcome.ok a).andThen f = f a := rfl

@[simp] theorem Outcome.andThen_fault {α β : Type} (e : Fault) (f : α → Outcome β) :
    (Outcome.fault e : Outcome α).andThen f = Outcome.fault e := rfl

@[simp] theorem Outcome.map_ok {α β : Type} (a : α) (f : α → β) :
    (Outcome.ok a).map f = Outcome.ok (f a) := rfl

@[simp] theorem Outcome.map_fault {α β : Type} (e : Fault) (f : α → β) :
    (Outcome.fault e : Outcome α).map f = Outcome.fault e := rfl

/-- A read of `n` bytes yields `n` bytes. -/
theorem readBytes_length (mem : List Nat) (off n : Nat) : (readBytes mem off n).length = n := by
  simp only [readBytes, List.length_append, List.length_replicate, List.length_take,
    List.length_drop]
  omega

/-- A read inside the memory is the plain slice. -/
theorem readBytes_of_le (mem : List Nat) (off n : Nat) (h : off + n ≤ mem.length) :
    readBytes mem off n = (mem.drop off).take n := by
  have hl : ((mem.drop off).take n).length = n := by
    simp only [List.length_take, List.length_drop]; omega
  simp only [readBytes, hl, Nat.sub_self, List.replicate_zero, List.append_nil]

/-- A store inside the memory keeps its length. -/
theorem writeBytes_length (mem : List Nat) (off : Nat) (data : List Nat)
    (h : off + data.length ≤ mem.length) : (writeBytes mem off data).length = mem.length := by
  unfold writeBytes
  split
  · rfl
  · simp only [List.length_append, List.length_take, List.length_drop, List.length_replicate]
    omega

/-- A store at offset 0 replaces the front of the memory. -/
theorem writeBytes_zero (mem data : List Nat) (h : data.length ≤ mem.length) :
    writeBytes mem 0 data = data ++ mem.drop data.length := by
  unfold writeBytes
  split
  · next h0 =>
    have : data = [] := List.length_eq_zero.mp h0
    subst this; simp
  · have h0 : data.length - mem.length = 0 := by omega
    simp [h0]

/-- Small non-negative values convert to `size_t` unchanged. -/
theorem to_size_t_eq (k : Platform) (hk : k.WF) (x : Nat) (hx : x ≤ 65535) :
    to_size_t k (x : Int) = x := by
  unfold to_size_t
  have h32 : (2 : Nat) ^ 32 ≤ 2 ^ k.SIZE_BITS := Nat.pow_le_pow_right (by decide) hk.2.1
  have hlt : x < 2 ^ k.SIZE_BITS := by
    have : (2 : Nat) ^ 32 = 4294967296 := by norm_num
    omega
  have : ((x : Int) % (2 ^ k.SIZE_BITS : Int)) = (x : Int) := by
    apply Int.emod_eq_of_lt (by omega)
    exact_mod_cast hlt
  rw [this]; simp

/-- Values up to 65535 convert to `uint16_t` unchanged. -/
theorem to_uint16_eq (x : Nat) (hx : x ≤ 65535) : to_uint16 (x : Int) = x := by
  unfold to_uint16
  have : ((x : Int) % (2 ^ 16 : Int)) = (x : Int) := by
    apply Int.emod_eq_of_lt (by omega)
    norm_num; omega
  rw [this]; simp

/-- A store that ends inside the buffer succeeds and writes the bytes. -/
theorem store_fits (k : Platform) (mem : List Nat) (off : Nat) (data : List Nat)
    (h : off + data.length ≤ k.MESH_PROV_MAX_PROXY_PDU) :
    store k mem off data = Outcome.ok (writeBytes mem off data) := by
  unfold store
  split
  · next h0 => simp [writeBytes, h0]
  · rfl

/-- A non-empty store that ends behind the buffer is a fault. -/
theorem store_overrun (k : Platform) (mem : List Nat) (off : Nat) (data : List Nat)
    (h0 : data.length ≠ 0) (h : k.MESH_PROV_MAX_PROXY_PDU < off + data.length) :
    store k mem off data = Outcome.fault Fault.buffer_overrun := by
  unfold store
  rw [if_neg h0, if_neg (by omega)]

/-- `gatt_bearer_start_sending` faults exactly when the buffer cannot hold the header
byte or the segment; otherwise it is `start_sending_in_bounds`. -/
theorem start_sending_cases (k : Platform) (s : Bearer) (con_handle : Nat) :
    gatt_bearer_start_sending k s con_handle
      = if k.MESH_PROV_MAX_PROXY_PDU < 1 ∨ k.MESH_PROV_MAX_PROXY_PDU < pdu_segment_len s
        then Outcome.fault Fault.buffer_overrun
        else Outcome.ok (start_sending_in_bounds s con_handle) := by
  unfold gatt_bearer_start_sending
  simp only
  by_cases h1 : k.MESH_PROV_MAX_PROXY_PDU < 1
  · rw [if_pos (Or.inl h1), store_overrun k _ 0 _ (by simp) (by simpa using h1)]
    rfl
  · rw [store_fits k _ 0 _ (by simp; omega), Outcome.andThen_ok]
    by_cases h2 : k.MESH_PROV_MAX_PROXY_PDU < pdu_segment_len s
    · rw [if_pos (Or.inr h2), store_overrun k _ 0 _ (by rw [readBytes_length]; omega)
        (by rw [readBytes_length]; omega)]
      rfl
    · rw [if_neg (by omega), store_fits k _ 0 _ (by rw [readBytes_length]; omega),
        Outcome.andThen_ok]
      rfl

/-- With room for the header byte and the segment, `gatt_bearer_start_sending` gives
`start_sending_in_bounds`. -/
theorem start_sending_ok (k : Platform) (s : Bearer) (con_handle : Nat)
    (h1 : 1 ≤ k.MESH_PROV_MAX_PROXY_PDU) (h2 : pdu_segment_len s ≤ k.MESH_PROV_MAX_PROXY_PDU) :
    gatt_bearer_start_sending k s con_handle
      = Outcome.ok (start_sending_in_bounds s con_handle) := by
  rw [start_sending_cases, if_neg (by omega)]

/-- A segment longer than the buffer makes `gatt_bearer_start_sending` fault. -/
theorem start_sending_overrun (k : Platform) (s : Bearer) (con_handle : Nat)
    (h : k.MESH_PROV_MAX_PROXY_PDU < pdu_segment_len s) :
    gatt_bearer_start_sending k s con_handle = Outcome.fault Fault.buffer_overrun := by
  rw [start_sending_cases, if_pos (Or.inr h)]

/-- A result of `gatt_bearer_start_sending` is `start_sending_in_bounds`, and the segment
fitted the buffer. -/
theorem start_sending_eq_ok (k : Platform) (s : Bearer) (con_handle : Nat)
    (r : Bearer × List Event) (h : gatt_bearer_start_sending k s con_handle = Outcome.ok r) :
    r = start_sending_in_bounds s con_handle ∧ 1 ≤ k.MESH_PROV_MAX_PROXY_PDU
      ∧ pdu_segment_len s ≤ k.MESH_PROV_MAX_PROXY_PDU := by
  rw [start_sending_cases] at h
  split at h
  · exact absurd h (by simp)
  · next hn =>
    refine ⟨?_, by omega, by omega⟩
    injection h with h
    exact h.symm

/-- A frame sent in state CompleteMessage or LastSegment ends the transfer: the only call
is the transmission. -/
theorem start_sending_terminal (s : Bearer) (con_handle : Nat)
    (hst : s.segmentation_state = MESH_MSG_SAR_FIELD_COMPLETE_MSG
      ∨ s.segmentation_state = MESH_MSG_SAR_FIELD_LAST_SEGMENT) :
    ∃ frame, (start_sending_in_bounds s con_handle).1.outgoing_ready = 0
      ∧ (start_sending_in_bounds s con_handle).2 = [Event.send_proxy_pdu con_handle frame] := by
  simp [start_sending_in_bounds, start_sending_after_stores, if_pos hst]

/-- A frame sent in state FirstSegment or Continuation keeps the transfer as it was and
asks for one more send opportunity. -/
theorem start_sending_ongoing (s : Bearer) (con_handle : Nat)
    (hst : s.segmentation_state = MESH_MSG_SAR_FIELD_CONTINUE
      ∨ s.segmentation_state = MESH_MSG_SAR_FIELD_FIRST_SEGMENT) :
    ∃ frame, (start_sending_in_bounds s con_handle).1.outgoing_ready = s.outgoing_ready
      ∧ (start_sending_in_bounds s con_handle).2
          = [Event.send_proxy_pdu con_handle frame, Event.request_can_send_now con_handle] := by
  have hn : ¬ (s.segmentation_state = MESH_MSG_SAR_FIELD_COMPLETE_MSG
      ∨ s.segmentation_state = MESH_MSG_SAR_FIELD_LAST_SEGMENT) := by
    rcases hst with h | h <;> rw [h] <;> decide
  simp [start_sending_in_bounds, start_sending_after_stores, if_neg hn, if_pos hst]

/-- The `int` value -1 converts to the largest `size_t`. -/
theorem to_size_t_neg_one (k : Platform) :
    to_size_t k (-1) = 2 ^ k.SIZE_BITS - 1 := by
  unfold to_size_t
  have hpos : 0 < 2 ^ k.SIZE_BITS := Nat.pow_pos (by decide)
  have hM : (2 ^ k.SIZE_BITS : Int) = ((2 ^ k.SIZE_BITS : Nat) : Int) := by push_cast; rfl
  rw [hM]
  generalize 2 ^ k.SIZE_BITS = M at hpos ⊢
  have h : (-1 : Int) = ((M : Int) - 1) + (-1) * (M : Int) := by ring
  rw [h, Int.add_mul_emod_self, Int.emod_eq_of_lt (by omega) (by omega)]
  omega

/-- On a well-formed platform `size_t` holds at least 32 bits. -/
theorem size_bits_large (k : Platform) (hk : k.WF) : 4294967296 ≤ 2 ^ k.SIZE_BITS := by
  have h32 : (2 : Nat) ^ 32 ≤ 2 ^ k.SIZE_BITS := Nat.pow_le_pow_right (by decide) hk.2.1
  have : (2 : Nat) ^ 32 = 4294967296 := by norm_num
  omega

/-- The capacity check in natural-number terms, for a state whose offset is within the
buffer: a frame is refused when it is empty (`size = 0`, so `size - 1` is negative and
converts to the largest `size_t`) or when its payload does not fit behind the offset. -/
theorem sar_buffer_too_small_iff (k : Platform) (hk : k.WF) (s : Bearer) (size : Nat)
    (ho : s.reassembly_offset ≤ k.MESH_PROV_MAX_PROXY_PDU) (hs : size ≤ 65536) :
    sar_buffer_too_small k s size = true
      ↔ size = 0 ∨ k.MESH_PROV_MAX_PROXY_PDU < s.reassembly_offset + (size - 1) := by
  have hcap := hk.1
  have hbig := size_bits_large k hk
  have h1 : to_size_t k ((k.MESH_PROV_MAX_PROXY_PDU : Int) - (s.reassembly_offset : Int))
      = k.MESH_PROV_MAX_PROXY_PDU - s.reassembly_offset := by
    rw [← Nat.cast_sub ho]
    exact to_size_t_eq k hk _ (by omega)
  unfold sar_buffer_too_small
  rw [h1, decide_eq_true_iff]
  rcases Nat.eq_zero_or_pos size with h0 | hpos
  · subst h0
    have : ((0 : Nat) : Int) - 1 = -1 := by simp
    rw [this, to_size_t_neg_one k]
    constructor
    · intro _; exact Or.inl rfl
    · intro _; omega
  · have h2 : to_size_t k ((size : Int) - 1) = size - 1 := by
      have : (size : Int) - 1 = ((size - 1 : Nat) : Int) := by omega
      rw [this]
      exact to_size_t_eq k hk _ (by omega)
    rw [h2]
    omega

/-- The segment length never exceeds the remaining length as computed in `uint32_t`. -/
theorem pdu_segment_len_le (s : Bearer) :
    pdu_segment_len s
      ≤ to_uint32 ((s.proxy_pdu_size : Int) - (s.segmentation_offset : Int)) := by
  unfold pdu_segment_len btstack_min
  split
  · exact Nat.mod_le _ _
  · exact le_trans (Nat.mod_le _ _) (by omega)

/-- Sending a segment does not touch the reassembly offset. -/
theorem start_sending_reassembly_offset (s : Bearer) (con_handle : Nat) :
    (start_sending_in_bounds s con_handle).1.reassembly_offset = s.reassembly_offset := by
  unfold start_sending_in_bounds start_sending_after_stores
  simp only
  split
  · rfl
  · split <;> rfl

/-- Sending a segment that fits the buffer stores nothing past its end. -/
theorem start_sending_buffer_length (s : Bearer) (con_handle : Nat)
    (h1 : 1 ≤ s.sar_buffer.length) (h2 : pdu_segment_len s ≤ s.sar_buffer.length) :
    (start_sending_in_bounds s con_handle).1.sar_buffer.length = s.sar_buffer.length := by
  have hb1 : (writeBytes s.sar_buffer 0
      [((s.segmentation_state <<< 6) ||| s.msg_type) % 256]).length = s.sar_buffer.length :=
    writeBytes_length _ _ _ (by simpa using h1)
  have hb2 : (writeBytes (writeBytes s.sar_buffer 0
      [((s.segmentation_state <<< 6) ||| s.msg_type) % 256]) 0
      (readBytes (s.proxy_pdu.deref (writeBytes s.sar_buffer 0
        [((s.segmentation_state <<< 6) ||| s.msg_type) % 256])) s.segmentation_offset
        (pdu_segment_len s))).length = s.sar_buffer.length := by
    rw [writeBytes_length _ _ _ (by rw [readBytes_length, hb1]; omega), hb1]
  unfold start_sending_in_bounds start_sending_after_stores
  simp only
  split
  · exact hb2
  · split <;> exact hb2

/-- Sending a segment does not touch the stored message type. -/
theorem start_sending_msg_type (s : Bearer) (con_handle : Nat) :
    (start_sending_in_bounds s con_handle).1.msg_type = s.msg_type := by
  unfold start_sending_in_bounds start_sending_after_stores
  simp only
  split
  · rfl
  · split <;> rfl

/-- Sending a segment does not touch the stored MTU. -/
theorem start_sending_mtu (s : Bearer) (con_handle : Nat) :
    (start_sending_in_bounds s con_handle).1.gatt_bearer_mtu = s.gatt_bearer_mtu := by
  unfold start_sending_in_bounds start_sending_after_stores
  simp only
  split
  · rfl
  · split <;> rfl

/-- Every call of `gatt_bearer_start_sending` hands a frame to the transport first. -/
theorem start_sending_sends (s : Bearer) (con_handle : Nat) :
    ∃ frame rest, (start_sending_in_bounds s con_handle).2
      = Event.send_proxy_pdu con_handle frame :: rest := by
  unfold start_sending_in_bounds start_sending_after_stores
  simp only
  split
  · exact ⟨_, _, rfl⟩
  · split <;> exact ⟨_, _, rfl⟩

/-- The MTU update leaves the reassembly offset alone. -/
theorem update_mtu_reassembly_offset (k : Platform) (s : Bearer) (size att_mtu : Nat) :
    (update_mtu k s size att_mtu).reassembly_offset = s.reassembly_offset := by
  unfold update_mtu; split <;> rfl

/-- The MTU update leaves the buffer alone. -/
theorem update_mtu_sar_buffer (k : Platform) (s : Bearer) (size att_mtu : Nat) :
    (update_mtu k s size att_mtu).sar_buffer = s.sar_buffer := by
  unfold update_mtu; split <;> rfl

/-- The MTU update leaves the stored message type alone. -/
theorem update_mtu_msg_type (k : Platform) (s : Bearer) (size att_mtu : Nat) :
    (update_mtu k s size att_mtu).msg_type = s.msg_type := by
  unfold update_mtu; split <;> rfl

/-- The MTU update either keeps the stored MTU or, for a frame longer than
`ATT_DEFAULT_MTU - 1`, replaces it by the reported value. -/
theorem update_mtu_cases (k : Platform) (s : Bearer) (size att_mtu : Nat) :
    (update_mtu k s size att_mtu).gatt_bearer_mtu = s.gatt_bearer_mtu
    ∨ ((size : Int) > (k.ATT_DEFAULT_MTU : Int) - 1
        ∧ (update_mtu k s size att_mtu).gatt_bearer_mtu = att_mtu % 65536) := by
  unfold update_mtu
  split
  · next h => exact Or.inr ⟨h, rfl⟩
  · exact Or.inl rfl

/-- The segment length within the `uint16_t` range: the smaller of the remaining length
and the stored MTU. -/
theorem pdu_segment_len_eq (s : Bearer) (L : Nat) (hsz : s.proxy_pdu_size = L)
    (hoff : s.segmentation_offset ≤ L) (hL : L ≤ 65535) (hm : s.gatt_bearer_mtu ≤ 65535) :
    pdu_segment_len s = min (L - s.segmentation_offset) s.gatt_bearer_mtu := by
  have h32 : to_uint32 ((s.proxy_pdu_size : Int) - (s.segmentation_offset : Int))
      = L - s.segmentation_offset := by
    unfold to_uint32
    rw [hsz]
    have : ((L : Int) - (s.segmentation_offset : Int)) % (2 ^ 32 : Int)
        = ((L - s.segmentation_offset : Nat) : Int) := by
      norm_num
      omega
    rw [this]; simp
  unfold pdu_segment_len btstack_min
  rw [h32]
  split
  · rw [Nat.mod_eq_of_lt (by omega)]; omega
  · rw [Nat.mod_eq_of_lt (by omega)]; omega

/-- The fixture states are reached by the events their descriptions name. -/
theorem fixtures_reached :
    packet_handler stdPlatform (Bearer.init stdPlatform) (Packet.MESH_PB_TRANSPORT_LINK_OPEN 1)
      = Outcome.ok (sender23, [])
    ∧ packet_handler stdPlatform receiver0 (Packet.MESH_PB_TRANSPORT_LINK_OPEN 1)
      = Outcome.ok (receiver23, [])
    ∧ run stdPlatform receiver0 [first2] = Outcome.ok (receiver0_two, [])
    ∧ run stdPlatform receiver0 [first66] = Outcome.ok (receiver0_full, [])
    ∧ run stdPlatform receiver23 [first2] = Outcome.ok (receiver23_two, [])
    ∧ packet_handler stdPlatform receiver23 (Packet.PROVISIONING_DATA_PACKET first22 23 100)
      = Outcome.ok (receiver100, [])
    ∧ gatt_bearer_send_pdu stdPlatform sender23 1 (PduPtr.caller msg60) 60
      = Outcome.ok (sender23_mid msg60,
          [Event.send_proxy_pdu 1 (msg60.take 23), Event.request_can_send_now 1]) := by
  decide

/-! ## Outbound path: claims C1 to C5 -/

/-- C1 (fails on the code): the one-byte NetworkPDU message `[5]` is sent with the default
MTU 23.  The frame handed to the transport is `[5]`: the message byte stored over the
header byte.  Fed to a receiver in its initial state with both handlers registered, the
frame is decoded as message type 5 and dropped: nothing is handed on, the only change is
the overwritten `msg_type`.  The ten-byte message `msg10` is lost the same way. -/
theorem C1_round_trip_loses_message :
    (send_all stdPlatform 8 sender23 1 (PduPtr.caller [5]) 1).map (fun r => frames_of r.2)
      = Outcome.ok [[5]]
    ∧ run stdPlatform receiver0 (as_inbound 23 [[5]])
      = Outcome.ok ({ receiver0 with msg_type := 5 }, [])
    ∧ (send_all stdPlatform 8 sender23 1 (PduPtr.caller msg10) 10).map (fun r => frames_of r.2)
      = Outcome.ok [msg10]
    ∧ (run stdPlatform receiver0 (as_inbound 23 [msg10])).map (fun r => delivered_of r.2)
      = Outcome.ok [] := by
  decide

/-- C2 (fails on the code): with MTU 23 the ten-byte NetworkPDU message `msg10` is
transmitted as one frame that is the ten message bytes alone: its length is 10, not 11,
and its first byte is the first message byte `0xA1`, not the header `0x00`. -/
theorem C2_frame_has_no_header :
    (gatt_bearer_send_pdu stdPlatform sender23 1 (PduPtr.caller msg10) 10).map (fun r => r.2)
      = Outcome.ok [Event.send_proxy_pdu 1 msg10]
    ∧ msg10.length = 10 ∧ msg10.head? = some 0xA1
    ∧ ((gatt_bearer_send_pdu_setup sender23 (PduPtr.caller msg10) 10).segmentation_state <<< 6
        ||| (gatt_bearer_send_pdu_setup sender23 (PduPtr.caller msg10) 10).msg_type) = 0x00 := by
  decide

/-- C3 (fails on the code): with MTU 23 and the thirty-byte message `msg30` the first call
of `gatt_bearer_start_sending` consumes 23 message bytes (`min(30, mtu)`, not
`min(30, mtu - 1) = 22`) and the second consumes the remaining 7 (not 8). -/
theorem C3_segment_takes_mtu_bytes :
    pdu_segment_len (gatt_bearer_send_pdu_setup sender23 (PduPtr.caller msg30) 30) = 23
    ∧ (gatt_bearer_send_pdu stdPlatform sender23 1 (PduPtr.caller msg30) 30).map
        (fun r => r.1.segmentation_offset) = Outcome.ok 23
    ∧ (send_all stdPlatform 8 sender23 1 (PduPtr.caller msg30) 30).map (fun r => frames_of r.2)
        = Outcome.ok [msg30.take 23, msg30.drop 23]
    ∧ (msg30.take 23).length = 23 ∧ (msg30.drop 23).length = 7 := by
  decide

/-- C4 (as amended): a non-null message of length `L >= 1` sent on a valid handle with
stored MTU at least 1, whose first segment fits the shared buffer (`min(L, mtu)` is at
most the capacity), runs `gatt_bearer_start_sending` on the state set up by
`gatt_bearer_send_pdu`.  If `L <= mtu - 1` that state is CompleteMessage, the transfer is
inactive afterwards and the only call made is the frame transmission; if `L > mtu - 1`
that state is FirstSegment, the transfer stays active and the calls made are the frame
transmission followed by exactly one request for a further send opportunity on the same
handle. -/
theorem C4_initial_state_and_completion (k : Platform) (s : Bearer) (con_handle : Nat)
    (pdu : PduPtr) (L : Nat) (hpdu : pdu ≠ PduPtr.null) (hL : 1 ≤ L) (hL16 : L ≤ 65535)
    (hh : con_handle ≠ k.HCI_CON_HANDLE_INVALID) (hm : 1 ≤ s.gatt_bearer_mtu)
    (hm16 : s.gatt_bearer_mtu ≤ 65535)
    (hfit : min L s.gatt_bearer_mtu ≤ k.MESH_PROV_MAX_PROXY_PDU) :
    gatt_bearer_send_pdu k s con_handle pdu L
        = gatt_bearer_start_sending k (gatt_bearer_send_pdu_setup s pdu L) con_handle
    ∧ (L ≤ s.gatt_bearer_mtu - 1 →
        (gatt_bearer_send_pdu_setup s pdu L).segmentation_state
            = MESH_MSG_SAR_FIELD_COMPLETE_MSG
        ∧ ∃ s' frame, gatt_bearer_send_pdu k s con_handle pdu L
              = Outcome.ok (s', [Event.send_proxy_pdu con_handle frame])
            ∧ s'.outgoing_ready = 0
            ∧ requests_of [Event.send_proxy_pdu con_handle frame] = 0)
    ∧ (s.gatt_bearer_mtu - 1 < L →
        (gatt_bearer_send_pdu_setup s pdu L).segmentation_state
            = MESH_MSG_SAR_FIELD_FIRST_SEGMENT
        ∧ ∃ s' frame, gatt_bearer_send_pdu k s con_handle pdu L
              = Outcome.ok (s', [Event.send_proxy_pdu con_handle frame,
                  Event.request_can_send_now con_handle])
            ∧ s'.outgoing_ready = 1
            ∧ requests_of [Event.send_proxy_pdu con_handle frame,
                  Event.request_can_send_now con_handle] = 1) := by
  have h0 : L ≠ 0 := by omega
  have hsend : gatt_bearer_send_pdu k s con_handle pdu L
      = gatt_bearer_start_sending k (gatt_bearer_send_pdu_setup s pdu L) con_handle := by
    simp [gatt_bearer_send_pdu, hpdu, h0, hh]
  have hlen : pdu_segment_len (gatt_bearer_send_pdu_setup s pdu L)
      = min (L - 0) s.gatt_bearer_mtu :=
    pdu_segment_len_eq (gatt_bearer_send_pdu_setup s pdu L) L rfl (Nat.zero_le _) hL16 hm16
  have hok : gatt_bearer_start_sending k (gatt_bearer_send_pdu_setup s pdu L) con_handle
      = Outcome.ok (start_sending_in_bounds (gatt_bearer_send_pdu_setup s pdu L) con_handle) :=
    start_sending_ok k _ con_handle (by omega) (by rw [hlen]; omega)
  have hready : (gatt_bearer_send_pdu_setup s pdu L).outgoing_ready = 1 := rfl
  refine ⟨hsend, ?_, ?_⟩
  · intro hle
    have hst : (gatt_bearer_send_pdu_setup s pdu L).segmentation_state
        = MESH_MSG_SAR_FIELD_COMPLETE_MSG := by
      have : ¬ ((L : Int) > (s.gatt_bearer_mtu : Int) - 1) := by omega
      simp [gatt_bearer_send_pdu_setup, this]
    obtain ⟨frame, hr, he⟩ := start_sending_terminal _ con_handle (Or.inl hst)
    refine ⟨hst, _, frame, ?_, hr, rfl⟩
    rw [hsend, hok, ← he]
  · intro hgt
    have hst : (gatt_bearer_send_pdu_setup s pdu L).segmentation_state
        = MESH_MSG_SAR_FIELD_FIRST_SEGMENT := by
      have : (L : Int) > (s.gatt_bearer_mtu : Int) - 1 := by omega
      simp [gatt_bearer_send_pdu_setup, this]
    obtain ⟨frame, hr, he⟩ := start_sending_ongoing _ con_handle (Or.inr hst)
    refine ⟨hst, _, frame, ?_, hr.trans hready, rfl⟩
    rw [hsend, hok, ← he]

/-- Witness for C4: the ten-byte message `msg10` (one frame) and the thirty-byte message
`msg30` (first of several frames), both with the default MTU 23 on connection 1. -/
theorem C4_initial_state_and_completion_witness :
    ((gatt_bearer_send_pdu_setup sender23 (PduPtr.caller msg10) 10).segmentation_state
            = MESH_MSG_SAR_FIELD_COMPLETE_MSG
        ∧ ∃ s' frame, gatt_bearer_send_pdu stdPlatform sender23 1 (PduPtr.caller msg10) 10
              = Outcome.ok (s', [Event.send_proxy_pdu 1 frame])
            ∧ s'.outgoing_ready = 0
            ∧ requests_of [Event.send_proxy_pdu 1 frame] = 0)
    ∧ ((gatt_bearer_send_pdu_setup sender23 (PduPtr.caller msg30) 30).segmentation_state
            = MESH_MSG_SAR_FIELD_FIRST_SEGMENT
        ∧ ∃ s' frame, gatt_bearer_send_pdu stdPlatform sender23 1 (PduPtr.caller msg30) 30
              = Outcome.ok (s', [Event.send_proxy_pdu 1 frame, Event.request_can_send_now 1])
            ∧ s'.outgoing_ready = 1
            ∧ requests_of [Event.send_proxy_pdu 1 frame, Event.request_can_send_now 1] = 1) :=
  ⟨(C4_initial_state_and_completion stdPlatform sender23 1 (PduPtr.caller msg10) 10
      (by decide) (by decide) (by decide) (by decide) (by decide) (by decide)
      (by decide)).2.1 (by decide),
   (C4_initial_state_and_completion stdPlatform sender23 1 (PduPtr.caller msg30) 30
      (by decide) (by decide) (by decide) (by decide) (by decide) (by decide)
      (by decide)).2.2 (by decide)⟩

/-- C4 (the claim as stated fails): the receiver `receiver100` has the stored MTU 100,
reported by the transport for a 23-byte frame, and the valid handle 1.  Sending the
150-byte message `msg150` makes `gatt_bearer_start_sending` copy `min(150, 100) = 100`
bytes into the 66-byte buffer: the copy runs past the union into the variables behind it,
so the call has no defined resulting state, and not one with `outgoing_ready = 1`. -/
theorem C4_long_segment_overruns_buffer :
    packet_handler stdPlatform receiver23 (Packet.PROVISIONING_DATA_PACKET first22 23 100)
      = Outcome.ok (receiver100, [])
    ∧ receiver100.gatt_bearer_mtu = 100
    ∧ receiver100.gatt_bearer_con_handle ≠ stdPlatform.HCI_CON_HANDLE_INVALID
    ∧ msg150.length = 150
    ∧ pdu_segment_len (gatt_bearer_send_pdu_setup receiver100 (PduPtr.caller msg150) 150) = 100
    ∧ stdPlatform.MESH_PROV_MAX_PROXY_PDU = 66
    ∧ gatt_bearer_send_pdu stdPlatform receiver100 1 (PduPtr.caller msg150) 150
        = Outcome.fault Fault.buffer_overrun
    ∧ ¬ ∃ r, gatt_bearer_send_pdu stdPlatform receiver100 1 (PduPtr.caller msg150) 150
          = Outcome.ok r ∧ r.1.outgoing_ready = 1 := by
  have he : gatt_bearer_send_pdu stdPlatform receiver100 1 (PduPtr.caller msg150) 150
      = Outcome.fault Fault.buffer_overrun := by decide
  refine ⟨by decide, by decide, by decide, by decide, by decide, by decide, he, ?_⟩
  rintro ⟨r, hr, _⟩
  rw [he] at hr
  exact Outcome.noConfusion hr

/-- C5: `gatt_bearer_send_pdu` with a null buffer, a zero length or the invalid connection
handle returns the state it was given and makes no call: no frame is transmitted and no
send opportunity is requested. -/
theorem C5_send_pdu_rejected (k : Platform) (s : Bearer) (con_handle : Nat) (pdu : PduPtr)
    (size : Nat)
    (h : pdu = PduPtr.null ∨ size = 0 ∨ con_handle = k.HCI_CON_HANDLE_INVALID) :
    gatt_bearer_send_pdu k s con_handle pdu size = Outcome.ok (s, []) := by
  unfold gatt_bearer_send_pdu
  rcases h with h | h | h
  · simp [h]
  · simp [h]
  · simp [h]

/-- Witness for C5: a send of `msg10` on the invalid handle `0xffff`. -/
theorem C5_send_pdu_rejected_witness :
    gatt_bearer_send_pdu stdPlatform sender23 0xffff (PduPtr.caller msg10) 10
      = Outcome.ok (sender23, []) :=
  C5_send_pdu_rejected stdPlatform sender23 0xffff (PduPtr.caller msg10) 10
    (Or.inr (Or.inr (by decide)))

/-! ## Inbound path: claims C6 to C10 -/

/-- A continued step that succeeded: the first step succeeded too. -/
theorem Outcome.andThen_eq_ok {α β : Type} (r : Outcome α) (f : α → Outcome β) (b : β)
    (h : r.andThen f = Outcome.ok b) : ∃ a, r = Outcome.ok a ∧ f a = Outcome.ok b := by
  cases r with
  | ok a => exact ⟨a, rfl, h⟩
  | fault e => exact Outcome.noConfusion h

/-- A mapped step that succeeded: the step succeeded. -/
theorem Outcome.map_eq_ok {α β : Type} (r : Outcome α) (f : α → β) (b : β)
    (h : r.map f = Outcome.ok b) : ∃ a, r = Outcome.ok a ∧ f a = b := by
  cases r with
  | ok a => exact ⟨a, rfl, by injection h⟩
  | fault e => exact Outcome.noConfusion h

/-- A store that succeeded wrote the bytes with `writeBytes` and, unless empty, ended
inside the buffer. -/
theorem store_eq_ok (k : Platform) (mem : List Nat) (off : Nat) (data buf : List Nat)
    (h : store k mem off data = Outcome.ok buf) :
    buf = writeBytes mem off data
      ∧ (data.length = 0 ∨ off + data.length ≤ k.MESH_PROV_MAX_PROXY_PDU) := by
  unfold store at h
  split at h
  · next h0 =>
    injection h with h
    exact ⟨by rw [← h]; simp [writeBytes, h0], Or.inl h0⟩
  · split at h
    · next hle =>
      injection h with h
      exact ⟨h.symm, Or.inr hle⟩
    · exact Outcome.noConfusion h

/-- A result of `gatt_bearer_send_pdu` is the unchanged state with no call, or
`start_sending_in_bounds` on the state set up. -/
theorem send_pdu_eq_ok (k : Platform) (s : Bearer) (con_handle : Nat) (pdu : PduPtr)
    (size : Nat) (r : Bearer × List Event)
    (h : gatt_bearer_send_pdu k s con_handle pdu size = Outcome.ok r) :
    r = (s, []) ∨ (size ≠ 0
      ∧ r = start_sending_in_bounds (gatt_bearer_send_pdu_setup s pdu size) con_handle
      ∧ 1 ≤ k.MESH_PROV_MAX_PROXY_PDU
      ∧ pdu_segment_len (gatt_bearer_send_pdu_setup s pdu size)
          ≤ k.MESH_PROV_MAX_PROXY_PDU) := by
  unfold gatt_bearer_send_pdu at h
  split at h
  · injection h with h; exact Or.inl h.symm
  · next hn =>
    split at h
    · injection h with h; exact Or.inl h.symm
    · exact Or.inr ⟨fun h0 => hn (Or.inr h0), start_sending_eq_ok k _ con_handle r h⟩

/-- The segment length of a send that has just been set up is at most the message
length. -/
theorem pdu_segment_len_setup_le (s : Bearer) (pdu : PduPtr) (size : Nat) (h16 : size ≤ 65535) :
    pdu_segment_len (gatt_bearer_send_pdu_setup s pdu size) ≤ size := by
  refine le_trans (pdu_segment_len_le _) ?_
  have : to_uint32 (((gatt_bearer_send_pdu_setup s pdu size).proxy_pdu_size : Int)
      - ((gatt_bearer_send_pdu_setup s pdu size).segmentation_offset : Int)) = size := by
    show to_uint32 ((size : Int) - ((0 : Nat) : Int)) = size
    unfold to_uint32
    omega
  omega

/-- A send of at most as many bytes as the buffer holds does not fault. -/
theorem send_pdu_total (k : Platform) (s : Bearer) (con_handle : Nat) (pdu : PduPtr)
    (size : Nat) (hs : size ≤ k.MESH_PROV_MAX_PROXY_PDU) (h16 : size ≤ 65535) :
    ∃ r, gatt_bearer_send_pdu k s con_handle pdu size = Outcome.ok r := by
  unfold gatt_bearer_send_pdu
  split
  · exact ⟨_, rfl⟩
  · next hn =>
    split
    · exact ⟨_, rfl⟩
    · have hpos : size ≠ 0 := fun h => hn (Or.inr h)
      have hlen := pdu_segment_len_setup_le s pdu size h16
      exact ⟨_, start_sending_ok k _ con_handle (by omega) (by omega)⟩

/-- A result of `gatt_bearer_send_pdu` has the reassembly offset, the message type and the
MTU of the state before. -/
theorem send_pdu_keeps (k : Platform) (s : Bearer) (con_handle : Nat) (pdu : PduPtr)
    (size : Nat) (r : Bearer × List Event)
    (h : gatt_bearer_send_pdu k s con_handle pdu size = Outcome.ok r) :
    r.1.reassembly_offset = s.reassembly_offset ∧ r.1.msg_type = s.msg_type
      ∧ r.1.gatt_bearer_mtu = s.gatt_bearer_mtu := by
  rcases send_pdu_eq_ok k s con_handle pdu size r h with hr | ⟨_, hr, _, _⟩
  · rw [hr]; exact ⟨rfl, rfl, rfl⟩
  · rw [hr]
    exact ⟨start_sending_reassembly_offset _ _, start_sending_msg_type _ _,
      start_sending_mtu _ _⟩

/-- A result of `gatt_bearer_send_pdu` on a buffer of full length has a buffer of full
length. -/
theorem send_pdu_buffer_length (k : Platform) (s : Bearer) (con_handle : Nat) (pdu : PduPtr)
    (size : Nat) (r : Bearer × List Event)
    (hb : s.sar_buffer.length = k.MESH_PROV_MAX_PROXY_PDU)
    (h : gatt_bearer_send_pdu k s con_handle pdu size = Outcome.ok r) :
    r.1.sar_buffer.length = k.MESH_PROV_MAX_PROXY_PDU := by
  rcases send_pdu_eq_ok k s con_handle pdu size r h with hr | ⟨_, hr, h1, h2⟩
  · rw [hr]; exact hb
  · have hsame : (gatt_bearer_send_pdu_setup s pdu size).sar_buffer = s.sar_buffer := rfl
    rw [hr, start_sending_buffer_length _ _ (by rw [hsame, hb]; exact h1)
      (by rw [hsame, hb]; exact h2), hsame, hb]

/-- A result of the hand-over has the reassembly offset, the message type and the MTU of
the state before, and a buffer of full length if it had one. -/
theorem send_to_mesh_network_keeps (k : Platform) (s : Bearer) (r : Bearer × List Event)
    (h : send_to_mesh_network k s = Outcome.ok r) :
    r.1.reassembly_offset = s.reassembly_offset ∧ r.1.msg_type = s.msg_type
      ∧ r.1.gatt_bearer_mtu = s.gatt_bearer_mtu
      ∧ (s.sar_buffer.length = k.MESH_PROV_MAX_PROXY_PDU →
          r.1.sar_buffer.length = k.MESH_PROV_MAX_PROXY_PDU) := by
  unfold send_to_mesh_network gatt_bearer_send_mesh_message gatt_bearer_send_mesh_beacon at h
  split at h
  · obtain ⟨r0, h0, he⟩ := Outcome.map_eq_ok _ _ _ h
    obtain ⟨k1, k2, k3⟩ := send_pdu_keeps k s _ _ _ r0 h0
    rw [← he]
    exact ⟨k1, k2, k3, fun hb => send_pdu_buffer_length k s _ _ _ r0 hb h0⟩
  · split at h
    · obtain ⟨r0, h0, he⟩ := Outcome.map_eq_ok _ _ _ h
      obtain ⟨k1, k2, k3⟩ := send_pdu_keeps k s _ _ _ r0 h0
      rw [← he]
      exact ⟨k1, k2, k3, fun hb => send_pdu_buffer_length k s _ _ _ r0 hb h0⟩
    · injection h with h
      rw [← h]
      exact ⟨rfl, rfl, rfl, fun hb => hb⟩

/-- The hand-over of a message that lies within the buffer does not fault. -/
theorem send_to_mesh_network_total (k : Platform) (hk : k.WF) (s : Bearer)
    (ho : s.reassembly_offset ≤ k.MESH_PROV_MAX_PROXY_PDU) :
    ∃ r, send_to_mesh_network k s = Outcome.ok r := by
  have hcap := hk.1
  unfold send_to_mesh_network gatt_bearer_send_mesh_message gatt_bearer_send_mesh_beacon
  split
  · obtain ⟨r0, h0⟩ := send_pdu_total k s s.gatt_bearer_con_handle PduPtr.sar
      s.reassembly_offset ho (by omega)
    rw [h0]; exact ⟨_, rfl⟩
  · split
    · obtain ⟨r0, h0⟩ := send_pdu_total k s s.gatt_bearer_con_handle PduPtr.sar
        s.reassembly_offset ho (by omega)
      rw [h0]; exact ⟨_, rfl⟩
    · exact ⟨_, rfl⟩

/-- A frame refused by the capacity check, or by the type check before it, leaves the
buffer bytes and the reassembly offset as they were: only the stored message type
changes and no call is made. -/
theorem packet_handler_data_too_small (k : Platform) (s : Bearer) (packet : List Nat)
    (size att_mtu : Nat) (h : sar_buffer_too_small k s size = true) :
    packet_handler_data k s packet size att_mtu
      = Outcome.ok ({ s with msg_type := byteAt packet 0 &&& 0x3F }, []) := by
  have h1 : sar_buffer_too_small k { s with msg_type := byteAt packet 0 &&& 0x3F } size = true := h
  unfold packet_handler_data
  simp only [h1, if_true]
  split
  · split <;> rfl
  · rfl

/-- After any inbound frame that did not fault the stored message type is the type
decoded from its header, and the stored MTU is the old one or, for a frame longer than
`ATT_DEFAULT_MTU - 1`, the reported value. -/
theorem packet_handler_data_keeps (k : Platform) (s : Bearer) (packet : List Nat)
    (size att_mtu : Nat) (r : Bearer × List Event)
    (h : packet_handler_data k s packet size att_mtu = Outcome.ok r) :
    r.1.msg_type = byteAt packet 0 &&& 0x3F
    ∧ (r.1.gatt_bearer_mtu = s.gatt_bearer_mtu
      ∨ ((size : Int) > (k.ATT_DEFAULT_MTU : Int) - 1
          ∧ r.1.gatt_bearer_mtu = att_mtu % 65536)) := by
  have hu := update_mtu_cases k { s with msg_type := byteAt packet 0 &&& 0x3F } size att_mtu
  have hm := update_mtu_msg_type k { s with msg_type := byteAt packet 0 &&& 0x3F } size att_mtu
  unfold packet_handler_data at h
  simp only at h
  split at h
  · split at h
    · injection h with h; rw [← h]; exact ⟨rfl, Or.inl rfl⟩
    · split at h
      · injection h with h; rw [← h]; exact ⟨rfl, Or.inl rfl⟩
      · split at h
        · obtain ⟨buf, _, he⟩ := Outcome.andThen_eq_ok _ _ _ h
          injection he with he; rw [← he]; exact ⟨hm, hu⟩
        · split at h
          · obtain ⟨buf, _, he⟩ := Outcome.andThen_eq_ok _ _ _ h
            injection he with he; rw [← he]; exact ⟨hm, hu⟩
          · split at h
            · obtain ⟨buf, _, he⟩ := Outcome.andThen_eq_ok _ _ _ h
              obtain ⟨_, k2, k3, _⟩ := send_to_mesh_network_keeps k _ r he
              rw [k2, k3]; exact ⟨hm, hu⟩
            · split at h
              · obtain ⟨_, k2, k3, _⟩ := send_to_mesh_network_keeps k _ r h
                rw [k2, k3]; exact ⟨hm, hu⟩
              · injection h with h; rw [← h]; exact ⟨hm, hu⟩
  · injection h with h; rw [← h]; exact ⟨rfl, Or.inl rfl⟩

/-- One inbound frame on a state whose reassembly respects the buffer does not fault and
leaves a state whose reassembly respects the buffer. -/
theorem packet_handler_data_ok (k : Platform) (hk : k.WF) (s : Bearer) (packet : List Nat)
    (size att_mtu : Nat) (h : reassembly_ok k s) (hs : size ≤ 65535) :
    ∃ r, packet_handler_data k s packet size att_mtu = Outcome.ok r ∧ reassembly_ok k r.1 := by
  obtain ⟨ho, hb⟩ := h
  have hcap := hk.1
  unfold packet_handler_data
  simp only
  split
  · split
    · exact ⟨_, rfl, ho, hb⟩
    · split
      · exact ⟨_, rfl, ho, hb⟩
      · next hsmall =>
        have hfit : ¬ (size = 0 ∨ k.MESH_PROV_MAX_PROXY_PDU < s.reassembly_offset + (size - 1)) := by
          intro hc
          exact hsmall ((sar_buffer_too_small_iff k hk
            { s with msg_type := byteAt packet 0 &&& 0x3F } size ho (by omega)).mpr hc)
        have hpos : 1 ≤ size := by omega
        have hle : s.reassembly_offset + (size - 1) ≤ k.MESH_PROV_MAX_PROXY_PDU := by omega
        have hn : (size : Int) - 1 = ((size - 1 : Nat) : Int) := by omega
        have hpl : (readBytes packet 1 (to_size_t k ((size : Int) - 1))).length = size - 1 := by
          rw [readBytes_length, hn, to_size_t_eq k hk _ (by omega)]
        have hzl : (writeBytes (update_mtu k { s with msg_type := byteAt packet 0 &&& 0x3F }
            size att_mtu).sar_buffer 0 (List.replicate k.MESH_PROV_MAX_PROXY_PDU 0)).length
            = k.MESH_PROV_MAX_PROXY_PDU := by
          rw [writeBytes_length, update_mtu_sar_buffer]
          · exact hb
          · rw [update_mtu_sar_buffer]; simp [hb]
        have hso : (update_mtu k { s with msg_type := byteAt packet 0 &&& 0x3F }
            size att_mtu).reassembly_offset = s.reassembly_offset :=
          update_mtu_reassembly_offset _ _ _ _
        have hsb : (update_mtu k { s with msg_type := byteAt packet 0 &&& 0x3F }
            size att_mtu).sar_buffer.length = k.MESH_PROV_MAX_PROXY_PDU := by
          rw [update_mtu_sar_buffer]; exact hb
        split
        · rw [store_fits k _ 0 _ (by rw [hpl]; omega), Outcome.andThen_ok]
          refine ⟨_, rfl, ?_, ?_⟩
          · show to_uint16 ((size : Int) - 1) ≤ _
            rw [hn, to_uint16_eq _ (by omega)]; omega
          · show (writeBytes _ 0 _).length = _
            rw [writeBytes_length _ _ _ (by rw [hpl, hzl]; omega), hzl]
        · split
          · rw [store_fits k _ _ _ (by rw [hpl, hso]; exact hle), Outcome.andThen_ok]
            refine ⟨_, rfl, ?_, ?_⟩
            · show to_uint16 (((update_mtu k _ size att_mtu).reassembly_offset : Int)
                + ((size : Int) - 1)) ≤ _
              rw [hso]
              have : ((s.reassembly_offset : Int) + ((size : Int) - 1))
                  = ((s.reassembly_offset + (size - 1) : Nat) : Int) := by omega
              rw [this, to_uint16_eq _ (by omega)]; exact hle
            · show (writeBytes _ _ _).length = _
              rw [writeBytes_length _ _ _ (by rw [hpl, hso, hsb]; exact hle), hsb]
          · split
            · rw [store_fits k _ _ _ (by rw [hpl, hso]; exact hle), Outcome.andThen_ok]
              have hbl : (writeBytes (update_mtu k { s with msg_type := byteAt packet 0 &&& 0x3F }
                  size att_mtu).sar_buffer (update_mtu k
                    { s with msg_type := byteAt packet 0 &&& 0x3F } size att_mtu).reassembly_offset
                  (readBytes packet 1 (to_size_t k ((size : Int) - 1)))).length
                  = k.MESH_PROV_MAX_PROXY_PDU := by
                rw [writeBytes_length _ _ _ (by rw [hpl, hso, hsb]; exact hle), hsb]
              obtain ⟨r, hr⟩ := send_to_mesh_network_total k hk
                { update_mtu k { s with msg_type := byteAt packet 0 &&& 0x3F } size att_mtu with
                    sar_buffer := writeBytes (update_mtu k
                        { s with msg_type := byteAt packet 0 &&& 0x3F } size att_mtu).sar_buffer
                      (update_mtu k { s with msg_type := byteAt packet 0 &&& 0x3F }
                        size att_mtu).reassembly_offset
                      (readBytes packet 1 (to_size_t k ((size : Int) - 1)))
                    reassembly_offset := 0 } (Nat.zero_le _)
              obtain ⟨k1, _, _, k4⟩ := send_to_mesh_network_keeps k _ r hr
              exact ⟨r, hr, by rw [k1]; exact Nat.zero_le _, k4 hbl⟩
            · split
              · obtain ⟨r, hr⟩ := send_to_mesh_network_total k hk
                  (update_mtu k { s with msg_type := byteAt packet 0 &&& 0x3F } size att_mtu)
                  (by rw [hso]; exact ho)
                obtain ⟨k1, _, _, k4⟩ := send_to_mesh_network_keeps k _ r hr
                exact ⟨r, hr, by rw [k1, hso]; exact ho, k4 hsb⟩
              · exact ⟨_, rfl, by rw [hso]; exact ho, hsb⟩
  · exact ⟨_, rfl, ho, hb⟩

/-- A run of inbound frames from a state whose reassembly respects the buffer does not
fault and ends in such a state. -/
theorem run_ok (k : Platform) (hk : k.WF) (ps : List Packet) :
    ∀ s : Bearer, reassembly_ok k s → (∀ p ∈ ps, is_inbound_frame p) →
      ∃ r, run k s ps = Outcome.ok r ∧ reassembly_ok k r.1 := by
  induction ps with
  | nil => intro s h _; exact ⟨_, rfl, h⟩
  | cons p rest ih =>
    intro s h hall
    have hp := hall p (List.mem_cons_self _ _)
    have hstep : ∃ r, packet_handler k s p = Outcome.ok r ∧ reassembly_ok k r.1 := by
      cases p with
      | PROVISIONING_DATA_PACKET packet size att_mtu =>
        exact packet_handler_data_ok k hk s packet size att_mtu h hp
      | MESH_PB_TRANSPORT_LINK_OPEN cid => exact hp.elim
      | MESH_PB_TRANSPORT_LINK_CLOSED cid => exact hp.elim
      | MESH_SUBEVENT_CAN_SEND_NOW con_handle => exact hp.elim
      | other => exact hp.elim
    obtain ⟨r1, hr1, hok1⟩ := hstep
    obtain ⟨r2, hr2, hok2⟩ := ih r1.1 hok1 (fun q hq => hall q (List.mem_cons_of_mem _ hq))
    refine ⟨(r2.1, r1.2 ++ r2.2), ?_, hok2⟩
    show (packet_handler k s p).andThen _ = _
    rw [hr1, Outcome.andThen_ok, hr2]
    rfl

/-- C6 (as amended): a FirstSegment frame of a registered type NetworkPDU or Beacon whose
payload fits behind the current reassembly offset (`reassembly_offset + n <= capacity`,
the check the code makes before it looks at the SAR field) starts a new message: the
buffer holds the payload followed by zeros, `reassembly_offset = n`, the stored message
type is the decoded one, and no call is made (nothing is handed on). -/
theorem C6_first_segment_restarts (k : Platform) (hk : k.WF) (s : Bearer) (packet : List Nat)
    (size att_mtu t : Nat)
    (hbuf : s.sar_buffer.length = k.MESH_PROV_MAX_PROXY_PDU)
    (hsize : 1 ≤ size) (hlen : size ≤ packet.length)
    (hsar : byteAt packet 0 >>> 6 = MESH_MSG_SAR_FIELD_FIRST_SEGMENT)
    (htype : byteAt packet 0 &&& 0x3F = t)
    (ht : t = MESH_MSG_TYPE_NETWORK_PDU ∨ t = MESH_MSG_TYPE_BEACON)
    (hreg : s.client_callbacks.getD t false = true)
    (hfit : s.reassembly_offset + (size - 1) ≤ k.MESH_PROV_MAX_PROXY_PDU) :
    ∃ s', packet_handler k s (Packet.PROVISIONING_DATA_PACKET packet size att_mtu)
        = Outcome.ok (s', [])
      ∧ s'.sar_buffer = (packet.drop 1).take (size - 1)
            ++ List.replicate (k.MESH_PROV_MAX_PROXY_PDU - (size - 1)) 0
      ∧ s'.reassembly_offset = size - 1
      ∧ s'.msg_type = t := by
  have hcap := hk.1
  have hsmall : sar_buffer_too_small k { s with msg_type := t } size = false := by
    rw [Bool.eq_false_iff]
    intro hc
    have ho : s.reassembly_offset ≤ k.MESH_PROV_MAX_PROXY_PDU := by omega
    have h16 : size ≤ 65536 := by omega
    have h2 : size = 0 ∨ k.MESH_PROV_MAX_PROXY_PDU < s.reassembly_offset + (size - 1) :=
      (sar_buffer_too_small_iff k hk { s with msg_type := t } size ho h16).mp hc
    omega
  have hn : (size : Int) - 1 = ((size - 1 : Nat) : Int) := by omega
  have hpay : readBytes packet 1 (to_size_t k ((size : Int) - 1))
      = (packet.drop 1).take (size - 1) := by
    rw [hn, to_size_t_eq k hk _ (by omega), readBytes_of_le _ _ _ (by omega)]
  have hpl : ((packet.drop 1).take (size - 1)).length = size - 1 := by
    simp only [List.length_take, List.length_drop]; omega
  have hzero : writeBytes (update_mtu k { s with msg_type := t } size att_mtu).sar_buffer 0
      (List.replicate k.MESH_PROV_MAX_PROXY_PDU 0)
        = List.replicate k.MESH_PROV_MAX_PROXY_PDU 0 := by
    rw [update_mtu_sar_buffer, writeBytes_zero _ _ (by simp [hbuf])]
    simp [hbuf]
  have hbufnew : writeBytes (List.replicate k.MESH_PROV_MAX_PROXY_PDU 0) 0
      ((packet.drop 1).take (size - 1))
        = (packet.drop 1).take (size - 1)
            ++ List.replicate (k.MESH_PROV_MAX_PROXY_PDU - (size - 1)) 0 := by
    rw [writeBytes_zero _ _ (by rw [hpl, List.length_replicate]; omega), hpl]
    simp
  have hstore : store k (List.replicate k.MESH_PROV_MAX_PROXY_PDU 0) 0
      ((packet.drop 1).take (size - 1))
        = Outcome.ok ((packet.drop 1).take (size - 1)
            ++ List.replicate (k.MESH_PROV_MAX_PROXY_PDU - (size - 1)) 0) := by
    rw [store_fits k _ 0 _ (by rw [hpl]; omega), hbufnew]
  have hto16 : to_uint16 ((size : Int) - 1) = size - 1 := by
    rw [hn, to_uint16_eq _ (by omega)]
  have key : packet_handler k s (Packet.PROVISIONING_DATA_PACKET packet size att_mtu)
      = Outcome.ok ({ update_mtu k { s with msg_type := t } size att_mtu with
            sar_buffer := (packet.drop 1).take (size - 1)
              ++ List.replicate (k.MESH_PROV_MAX_PROXY_PDU - (size - 1)) 0
            reassembly_offset := size - 1 }, []) := by
    show packet_handler_data k s packet size att_mtu = _
    unfold packet_handler_data
    simp only [htype, hsar, ht, if_true, hreg, if_false, hsmall, Bool.false_eq_true,
      Bool.true_eq_false, hpay, hzero, hstore, Outcome.andThen_ok, hto16]
  exact ⟨_, key, rfl, rfl, update_mtu_msg_type _ _ _ _⟩

/-- Witness for C6: the frame `[0x40, 10, 11]` received in the initial state. -/
theorem C6_first_segment_restarts_witness :
    ∃ s', packet_handler stdPlatform receiver0
          (Packet.PROVISIONING_DATA_PACKET [0x40, 10, 11] 3 23) = Outcome.ok (s', [])
      ∧ s'.sar_buffer = ([0x40, 10, 11].drop 1).take (3 - 1) ++ List.replicate (66 - (3 - 1)) 0
      ∧ s'.reassembly_offset = 3 - 1
      ∧ s'.msg_type = MESH_MSG_TYPE_NETWORK_PDU :=
  C6_first_segment_restarts stdPlatform (by decide) receiver0 [0x40, 10, 11] 3 23
    MESH_MSG_TYPE_NETWORK_PDU (by decide) (by decide) (by decide) (by decide) (by decide)
    (Or.inl rfl) (by decide) (by decide)

/-- C6 (the claim as stated fails): after a FirstSegment frame with 66 payload bytes the
reassembly offset is 66, the capacity.  A following FirstSegment frame `[0x40, 7]` of the
registered type NetworkPDU has payload length 1, which is at most the capacity, yet the
capacity check refuses it: the offset stays 66 instead of becoming 1 and the buffer still
holds the old bytes instead of `7` followed by zeros. -/
theorem C6_first_segment_refused_behind_full_buffer :
    run stdPlatform receiver0 [first66] = Outcome.ok (receiver0_full, [])
    ∧ receiver0_full.reassembly_offset = 66
    ∧ byteAt [0x40, 7] 0 >>> 6 = MESH_MSG_SAR_FIELD_FIRST_SEGMENT
    ∧ byteAt [0x40, 7] 0 &&& 0x3F = MESH_MSG_TYPE_NETWORK_PDU
    ∧ receiver0_full.client_callbacks.getD MESH_MSG_TYPE_NETWORK_PDU false = true
    ∧ 2 - 1 ≤ stdPlatform.MESH_PROV_MAX_PROXY_PDU
    ∧ packet_handler stdPlatform receiver0_full first1 = Outcome.ok (receiver0_full, [])
    ∧ receiver0_full.reassembly_offset ≠ 2 - 1
    ∧ receiver0_full.sar_buffer = List.replicate 66 9
    ∧ receiver0_full.sar_buffer ≠ 7 :: List.replicate 65 0 := by
  decide

/-- C7 (fails on the code): the FirstSegment frame `[0x40, 10, 11]` followed by the
LastSegment frame `[0xC0, 12]` assembles `[10, 11, 12]` in the buffer, but the offset is
reset to 0 before the hand-over call, so `gatt_bearer_send_mesh_message` is called with
length 0: no byte is handed on (and the call itself returns at once on the zero
length). -/
theorem C7_last_segment_hands_over_nothing :
    run stdPlatform receiver0 [first2, last1]
      = Outcome.ok ({ receiver0 with sar_buffer := [10, 11, 12] ++ List.replicate 63 0 },
          [Event.send_mesh_message []])
    ∧ (run stdPlatform receiver0 [first2, last1]).map (fun r => delivered_of r.2)
      = Outcome.ok [(MESH_MSG_TYPE_NETWORK_PDU, [])] := by
  decide

/-- C8 (fails on the code): a CompleteMessage frame `[0x00, 7, 8, 9]` is never copied; the
hand-over call passes the reassembly buffer with the current offset.  In the initial
state that is length 0, so nothing is handed on.  After the FirstSegment frame
`[0x40, 10, 11]` the two stale bytes `[10, 11]` are handed on instead of `[7, 8, 9]`, and
because the hand-over function is the send function, a transfer of the buffer is started:
the header byte `0x40` is stored over the first buffer byte. -/
theorem C8_complete_message_payload_not_handed_over :
    run stdPlatform receiver0 [complete3]
      = Outcome.ok (receiver0, [Event.send_mesh_message []])
    ∧ (run stdPlatform receiver0 [first2, complete3]).map (fun r => delivered_of r.2)
        = Outcome.ok [(MESH_MSG_TYPE_NETWORK_PDU, [10, 11])]
    ∧ (run stdPlatform receiver0 [first2]).map (fun r => r.1.sar_buffer)
        = Outcome.ok ([10, 11] ++ List.replicate 64 0)
    ∧ (run stdPlatform receiver0 [first2, complete3]).map (fun r => r.1.sar_buffer)
        = Outcome.ok ([0x40, 11] ++ List.replicate 64 0)
    ∧ (run stdPlatform receiver0 [first2, complete3]).map (fun r => r.1.reassembly_offset)
        = Outcome.ok 2
    ∧ (run stdPlatform receiver0 [first2, complete3]).map (fun r => r.1.outgoing_ready)
        = Outcome.ok 1 := by
  decide

/-- C9 (as amended): a frame of a registered type whose payload does not fit behind the
current offset (`reassembly_offset + payload_length > capacity`, for an offset within the
buffer) is dropped: the buffer is not written, no call is made, and the reassembly offset
keeps its value; the only change to the state is the stored message type. -/
theorem C9_overflow_drops_frame (k : Platform) (hk : k.WF) (s : Bearer) (packet : List Nat)
    (size att_mtu t : Nat) (hs : size ≤ 65535)
    (ho : s.reassembly_offset ≤ k.MESH_PROV_MAX_PROXY_PDU)
    (htype : byteAt packet 0 &&& 0x3F = t)
    (ht : t = MESH_MSG_TYPE_NETWORK_PDU ∨ t = MESH_MSG_TYPE_BEACON)
    (hreg : s.client_callbacks.getD t false = true)
    (hover : k.MESH_PROV_MAX_PROXY_PDU < s.reassembly_offset + (size - 1)) :
    ∃ s', packet_handler k s (Packet.PROVISIONING_DATA_PACKET packet size att_mtu)
        = Outcome.ok (s', [])
      ∧ s' = { s with msg_type := t }
      ∧ s'.sar_buffer = s.sar_buffer
      ∧ s'.reassembly_offset = s.reassembly_offset := by
  have hsmall : sar_buffer_too_small k s size = true :=
    (sar_buffer_too_small_iff k hk s size ho (by omega)).mpr (Or.inr hover)
  refine ⟨{ s with msg_type := t }, ?_, rfl, rfl, rfl⟩
  show packet_handler_data k s packet size att_mtu = _
  rw [packet_handler_data_too_small k s packet size att_mtu hsmall, htype]

/-- Witness for C9: two bytes are buffered, then a Continuation frame with 65 payload
bytes arrives. -/
theorem C9_overflow_drops_frame_witness :
    ∃ s', packet_handler stdPlatform receiver0_two
          (Packet.PROVISIONING_DATA_PACKET (0x80 :: List.replicate 65 7) 66 23)
        = Outcome.ok (s', [])
      ∧ s' = { receiver0_two with msg_type := MESH_MSG_TYPE_NETWORK_PDU }
      ∧ s'.sar_buffer = receiver0_two.sar_buffer
      ∧ s'.reassembly_offset = receiver0_two.reassembly_offset :=
  C9_overflow_drops_frame stdPlatform (by decide) receiver0_two
    (0x80 :: List.replicate 65 7) 66 23 MESH_MSG_TYPE_NETWORK_PDU (by decide) (by decide)
    (by decide) (Or.inl rfl) (by decide) (by decide)

/-- C9 (the claim as stated fails): with two bytes buffered (`reassembly_offset = 2`) a
Continuation frame of the registered type NetworkPDU with 65 payload bytes overflows the
66-byte buffer.  The frame is dropped, but the offset is left at 2, not reset to 0. -/
theorem C9_offset_not_reset_on_overflow :
    run stdPlatform receiver0 [first2] = Outcome.ok (receiver0_two, [])
    ∧ receiver0_two.reassembly_offset = 2
    ∧ stdPlatform.MESH_PROV_MAX_PROXY_PDU < 2 + (66 - 1)
    ∧ (packet_handler stdPlatform receiver0_two cont65).map (fun r => r.1.reassembly_offset)
        = Outcome.ok 2
    ∧ (packet_handler stdPlatform receiver0_two cont65).map (fun r => r.1.reassembly_offset)
        ≠ Outcome.ok 0
    ∧ (packet_handler stdPlatform receiver0_two cont65).map (fun r => r.2) = Outcome.ok [] := by
  decide

/-- C10: starting from a state with `reassembly_offset = 0` and the buffer intact (the
initial state, with any handlers registered), every frame of any finite sequence of
inbound frames with any contents and any `uint16_t` size is processed without a store
past the end of the buffer (no fault), after it the reassembly offset is at most the
capacity and the buffer has its full length; and a frame that fails the capacity check
leaves the buffer bytes and the reassembly offset exactly as they were. -/
theorem C10_overflow_safety (k : Platform) (hk : k.WF) (s0 : Bearer)
    (ho : s0.reassembly_offset = 0)
    (hb : s0.sar_buffer.length = k.MESH_PROV_MAX_PROXY_PDU)
    (ps : List Packet) (hall : ∀ p ∈ ps, is_inbound_frame p)
    (pre : List Packet) (packet : List Nat) (size att_mtu : Nat) (post : List Packet)
    (hsplit : ps = pre ++ Packet.PROVISIONING_DATA_PACKET packet size att_mtu :: post) :
    ∃ r1 r2, run k s0 pre = Outcome.ok r1
      ∧ packet_handler k r1.1 (Packet.PROVISIONING_DATA_PACKET packet size att_mtu)
          = Outcome.ok r2
      ∧ r2.1.reassembly_offset ≤ k.MESH_PROV_MAX_PROXY_PDU
      ∧ r2.1.sar_buffer.length = k.MESH_PROV_MAX_PROXY_PDU
      ∧ (sar_buffer_too_small k r1.1 size = true →
          r2.1.sar_buffer = r1.1.sar_buffer
          ∧ r2.1.reassembly_offset = r1.1.reassembly_offset) := by
  subst hsplit
  have h0 : reassembly_ok k s0 := ⟨by rw [ho]; exact Nat.zero_le _, hb⟩
  obtain ⟨r1, hr1, hpre⟩ :=
    run_ok k hk pre s0 h0 (fun p hp => hall p (List.mem_append_left _ hp))
  have hsz : size ≤ 65535 :=
    hall (Packet.PROVISIONING_DATA_PACKET packet size att_mtu)
      (List.mem_append_right _ (List.mem_cons_self _ _))
  obtain ⟨r2, hr2, hstep⟩ := packet_handler_data_ok k hk r1.1 packet size att_mtu hpre hsz
  refine ⟨r1, r2, hr1, hr2, hstep.1, hstep.2, ?_⟩
  intro hsmall
  have he := packet_handler_data_too_small k r1.1 packet size att_mtu hsmall
  rw [he] at hr2
  injection hr2 with hr2
  rw [← hr2]
  exact ⟨rfl, rfl⟩

/-- Witness for C10: the receiver in its initial state is fed a two-byte FirstSegment
frame, then a Continuation frame with 65 payload bytes, which fails the capacity check,
then a LastSegment frame. -/
theorem C10_overflow_safety_witness :
    ∃ r1 r2, run stdPlatform receiver0 [first2] = Outcome.ok r1
      ∧ packet_handler stdPlatform r1.1
          (Packet.PROVISIONING_DATA_PACKET (0x80 :: List.replicate 65 7) 66 23) = Outcome.ok r2
      ∧ r2.1.reassembly_offset ≤ stdPlatform.MESH_PROV_MAX_PROXY_PDU
      ∧ r2.1.sar_buffer.length = stdPlatform.MESH_PROV_MAX_PROXY_PDU
      ∧ (sar_buffer_too_small stdPlatform r1.1 66 = true →
          r2.1.sar_buffer = r1.1.sar_buffer
          ∧ r2.1.reassembly_offset = r1.1.reassembly_offset) :=
  C10_overflow_safety stdPlatform (by decide) receiver0 (by decide) (by decide)
    [first2, cont65, last1] (by decide) [first2] (0x80 :: List.replicate 65 7) 66 23 [last1]
    (by decide)

/-! ## Rejected frames, link events and the stored MTU: claims C11, C14, C15, C16 -/

/-- C11 (as amended): an inbound frame whose decoded message type is neither NetworkPDU
nor Beacon, or is one of them with no handler registered, makes no call (nothing is
delivered or transmitted) and leaves every part of the bearer state as it was except the
stored message type `msg_type`, which is overwritten with the decoded type. -/
theorem C11_rejected_frame_changes_only_msg_type (k : Platform) (s : Bearer)
    (packet : List Nat) (size att_mtu : Nat)
    (h : (byteAt packet 0 &&& 0x3F ≠ MESH_MSG_TYPE_NETWORK_PDU
          ∧ byteAt packet 0 &&& 0x3F ≠ MESH_MSG_TYPE_BEACON)
        ∨ s.client_callbacks.getD (byteAt packet 0 &&& 0x3F) false = false) :
    packet_handler k s (Packet.PROVISIONING_DATA_PACKET packet size att_mtu)
      = Outcome.ok ({ s with msg_type := byteAt packet 0 &&& 0x3F }, []) := by
  show packet_handler_data k s packet size att_mtu = _
  unfold packet_handler_data
  simp only
  split
  · next hty =>
    rcases h with h | h
    · rcases hty with hty | hty
      · exact absurd hty h.1
      · exact absurd hty h.2
    · rw [if_pos h]
  · rfl

/-- Witness for C11: the frame `[5]`, of the unsupported type 5, at the receiver. -/
theorem C11_rejected_frame_changes_only_msg_type_witness :
    packet_handler stdPlatform receiver0 (Packet.PROVISIONING_DATA_PACKET [5] 1 23)
      = Outcome.ok ({ receiver0 with msg_type := byteAt [5] 0 &&& 0x3F }, []) :=
  C11_rejected_frame_changes_only_msg_type stdPlatform receiver0 [5] 1 23
    (Or.inl (by decide))

/-- C11 (the claim as stated fails): the receiver has `msg_type = 0`; the frame `[5]` has
the unsupported type 5 and is rejected, yet the state afterwards differs from the state
before: `msg_type` is 5.  The same happens for a Beacon frame `[1]` when no handler is
registered. -/
theorem C11_rejected_frame_overwrites_msg_type :
    byteAt [5] 0 &&& 0x3F ≠ MESH_MSG_TYPE_NETWORK_PDU
    ∧ byteAt [5] 0 &&& 0x3F ≠ MESH_MSG_TYPE_BEACON
    ∧ (packet_handler stdPlatform receiver0 (Packet.PROVISIONING_DATA_PACKET [5] 1 23)).map
        (fun r => r.1) ≠ Outcome.ok receiver0
    ∧ receiver0.msg_type = 0
    ∧ (packet_handler stdPlatform receiver0
        (Packet.PROVISIONING_DATA_PACKET [5] 1 23)).map (fun r => r.1.msg_type) = Outcome.ok 5
    ∧ (Bearer.init stdPlatform).client_callbacks.getD MESH_MSG_TYPE_BEACON false = false
    ∧ (packet_handler stdPlatform (Bearer.init stdPlatform)
        (Packet.PROVISIONING_DATA_PACKET [1] 1 23)).map (fun r => r.1)
        ≠ Outcome.ok (Bearer.init stdPlatform) := by
  decide

/-- C14 (as amended): a link-closed event stores the connection id carried by the event as
the connection handle and resets the MTU to the default, leaving everything else alone;
the stored handle is `HCI_CON_HANDLE_INVALID` exactly when the event carries that value. -/
theorem C14_link_closed_stores_event_cid (k : Platform) (s : Bearer) (cid : Nat) :
    ∃ s', packet_handler k s (Packet.MESH_PB_TRANSPORT_LINK_CLOSED cid) = Outcome.ok (s', [])
      ∧ s' = { s with gatt_bearer_mtu := k.ATT_DEFAULT_MTU, gatt_bearer_con_handle := cid }
      ∧ (s'.gatt_bearer_con_handle = k.HCI_CON_HANDLE_INVALID
          ↔ cid = k.HCI_CON_HANDLE_INVALID) :=
  ⟨_, rfl, rfl, Iff.rfl⟩

/-- C14 (the claim as stated fails): connection 1 is open; the link-closed event for
connection 1 leaves the stored handle at 1, not at `HCI_CON_HANDLE_INVALID = 0xffff`. -/
theorem C14_handle_not_cleared_on_close :
    sender23.gatt_bearer_con_handle = 1
    ∧ (packet_handler stdPlatform sender23 (Packet.MESH_PB_TRANSPORT_LINK_CLOSED 1)).map
        (fun r => r.1.gatt_bearer_con_handle) = Outcome.ok 1
    ∧ (packet_handler stdPlatform sender23 (Packet.MESH_PB_TRANSPORT_LINK_CLOSED 1)).map
        (fun r => r.1.gatt_bearer_con_handle)
        ≠ Outcome.ok stdPlatform.HCI_CON_HANDLE_INVALID := by
  decide

/-- C15 (as amended): a link-closed event does not abort an active transfer.  It leaves
`outgoing_ready` and the whole transfer (message pointer, length, cursor, SAR state) as
they were, and a can-send-now event with a valid handle processed afterwards runs
`gatt_bearer_start_sending` on that transfer, which hands its next frame to the
transport.  (The segment is at most the default MTU, to which the event has reset the
stored MTU; it lies inside the buffer when the default MTU is at most the capacity, as it
is for 23 and 66.) -/
theorem C15_link_closed_keeps_transfer (k : Platform) (s : Bearer) (cid con_handle : Nat)
    (hact : s.outgoing_ready = 1) (hh : con_handle ≠ k.HCI_CON_HANDLE_INVALID) :
    ∃ sc, packet_handler k s (Packet.MESH_PB_TRANSPORT_LINK_CLOSED cid) = Outcome.ok (sc, [])
      ∧ sc.outgoing_ready = 1
      ∧ sc.proxy_pdu = s.proxy_pdu
      ∧ sc.proxy_pdu_size = s.proxy_pdu_size
      ∧ sc.segmentation_offset = s.segmentation_offset
      ∧ sc.segmentation_state = s.segmentation_state
      ∧ packet_handler k sc (Packet.MESH_SUBEVENT_CAN_SEND_NOW con_handle)
          = gatt_bearer_start_sending k sc con_handle
      ∧ (∀ r, packet_handler k sc (Packet.MESH_SUBEVENT_CAN_SEND_NOW con_handle) = Outcome.ok r →
          ∃ frame rest, r.2 = Event.send_proxy_pdu con_handle frame :: rest)
      ∧ (1 ≤ k.MESH_PROV_MAX_PROXY_PDU → k.ATT_DEFAULT_MTU ≤ k.MESH_PROV_MAX_PROXY_PDU →
          ∃ s' frame rest,
            packet_handler k sc (Packet.MESH_SUBEVENT_CAN_SEND_NOW con_handle)
              = Outcome.ok (s', Event.send_proxy_pdu con_handle frame :: rest)) := by
  have hstep : packet_handler k
        { s with gatt_bearer_mtu := k.ATT_DEFAULT_MTU, gatt_bearer_con_handle := cid }
        (Packet.MESH_SUBEVENT_CAN_SEND_NOW con_handle)
      = gatt_bearer_start_sending k
          { s with gatt_bearer_mtu := k.ATT_DEFAULT_MTU, gatt_bearer_con_handle := cid }
          con_handle := by
    have hr : ({ s with gatt_bearer_mtu := k.ATT_DEFAULT_MTU,
                        gatt_bearer_con_handle := cid } : Bearer).outgoing_ready ≠ 0 := by
      show s.outgoing_ready ≠ 0
      rw [hact]; decide
    show (if con_handle = k.HCI_CON_HANDLE_INVALID then _ else _) = _
    rw [if_neg hh, if_neg hr]
  refine ⟨_, rfl, hact, rfl, rfl, rfl, rfl, hstep, ?_, ?_⟩
  · intro r hr
    rw [hstep] at hr
    obtain ⟨he, _, _⟩ := start_sending_eq_ok k _ con_handle r hr
    rw [he]
    exact start_sending_sends _ _
  · intro h1 hdef
    have hlen : pdu_segment_len
        { s with gatt_bearer_mtu := k.ATT_DEFAULT_MTU, gatt_bearer_con_handle := cid }
          ≤ k.ATT_DEFAULT_MTU := by
      unfold pdu_segment_len btstack_min
      simp only
      refine le_trans (Nat.mod_le _ _) ?_
      split <;> omega
    obtain ⟨frame, rest, he⟩ := start_sending_sends
      { s with gatt_bearer_mtu := k.ATT_DEFAULT_MTU, gatt_bearer_con_handle := cid } con_handle
    refine ⟨(start_sending_in_bounds
      { s with gatt_bearer_mtu := k.ATT_DEFAULT_MTU, gatt_bearer_con_handle := cid }
      con_handle).1, frame, rest, ?_⟩
    rw [hstep, start_sending_ok k _ con_handle h1 (le_trans hlen hdef), ← he]

/-- Witness for C15: the 60-byte message `msg60` needs three segments with MTU 23; the link
is closed after the first one, in the state `sender23_mid msg60`. -/
theorem C15_link_closed_keeps_transfer_witness :
    ∃ sc, packet_handler stdPlatform (sender23_mid msg60)
          (Packet.MESH_PB_TRANSPORT_LINK_CLOSED 1) = Outcome.ok (sc, [])
      ∧ sc.outgoing_ready = 1
      ∧ ∃ s' frame rest,
          packet_handler stdPlatform sc (Packet.MESH_SUBEVENT_CAN_SEND_NOW 1)
            = Outcome.ok (s', Event.send_proxy_pdu 1 frame :: rest) :=
  match C15_link_closed_keeps_transfer stdPlatform (sender23_mid msg60) 1 1
      (by decide) (by decide) with
  | ⟨sc, h1, h2, _, _, _, _, _, _, h9⟩ => ⟨sc, h1, h2, h9 (by decide) (by decide)⟩

/-- C15 (the claim as stated fails): `msg60` is sent with MTU 23 on connection 1.  After
the first segment the transfer is active in state Continuation (the state
`sender23_mid msg60`).  The link-closed event leaves `outgoing_ready = 1`, and the next
can-send-now event transmits the second segment of the transfer, the message bytes 23 to
45. -/
theorem C15_transfer_continues_after_close :
    (gatt_bearer_send_pdu stdPlatform sender23 1 (PduPtr.caller msg60) 60).map (fun r => r.1)
      = Outcome.ok (sender23_mid msg60)
    ∧ (sender23_mid msg60).outgoing_ready = 1
    ∧ (sender23_mid msg60).segmentation_state = MESH_MSG_SAR_FIELD_CONTINUE
    ∧ (packet_handler stdPlatform (sender23_mid msg60)
        (Packet.MESH_PB_TRANSPORT_LINK_CLOSED 1)).map (fun r => r.1.outgoing_ready)
        = Outcome.ok 1
    ∧ (packet_handler stdPlatform (sender23_mid msg60)
        (Packet.MESH_PB_TRANSPORT_LINK_CLOSED 1)).map (fun r => r.1.outgoing_ready)
        ≠ Outcome.ok 0
    ∧ (run stdPlatform (sender23_mid msg60)
        [Packet.MESH_PB_TRANSPORT_LINK_CLOSED 1, Packet.MESH_SUBEVENT_CAN_SEND_NOW 1]).map
          (fun r => frames_of r.2) = Outcome.ok [(msg60.drop 23).take 23] := by
  decide

/-- C16 (as amended): after an inbound data frame the stored MTU is either unchanged or
equal to the value `att_server_get_mtu` returned; it is changed only when the frame's
total length exceeds `ATT_DEFAULT_MTU - 1`; and it does not decrease when the returned
value is at least the stored MTU.  This holds of every state the handler returns, and it
does return from every state with the reassembly offset within the intact buffer. -/
theorem C16_mtu_follows_transport (k : Platform) (s : Bearer) (packet : List Nat)
    (size att_mtu : Nat) :
    (∀ r, packet_handler k s (Packet.PROVISIONING_DATA_PACKET packet size att_mtu)
        = Outcome.ok r →
      (r.1.gatt_bearer_mtu = s.gatt_bearer_mtu ∨ r.1.gatt_bearer_mtu = att_mtu % 65536)
      ∧ (r.1.gatt_bearer_mtu ≠ s.gatt_bearer_mtu → (size : Int) > (k.ATT_DEFAULT_MTU : Int) - 1)
      ∧ (s.gatt_bearer_mtu ≤ att_mtu % 65536 → s.gatt_bearer_mtu ≤ r.1.gatt_bearer_mtu))
    ∧ (k.WF → reassembly_ok k s → size ≤ 65535 →
        ∃ r, packet_handler k s (Packet.PROVISIONING_DATA_PACKET packet size att_mtu)
          = Outcome.ok r) := by
  constructor
  · intro r hr
    have h := (packet_handler_data_keeps k s packet size att_mtu r hr).2
    rcases h with h | ⟨hs, h⟩
    · exact ⟨Or.inl h, fun hne => absurd h hne, fun _ => by rw [h]⟩
    · exact ⟨Or.inr h, fun _ => hs, fun hle => by rw [h]; exact hle⟩
  · intro hk hs hsz
    obtain ⟨r, hr, _⟩ := packet_handler_data_ok k hk s packet size att_mtu hs hsz
    exact ⟨r, hr⟩

/-- C16 (the claim as stated fails): after link-open the stored MTU is 23.  A 23-byte
frame for which the transport reports MTU 100 raises it to 100 (the state `receiver100`);
a second 23-byte frame for which the transport reports 23 lowers it from 100 to 23. -/
theorem C16_mtu_can_decrease :
    receiver23.gatt_bearer_mtu = 23
    ∧ packet_handler stdPlatform receiver23 (Packet.PROVISIONING_DATA_PACKET first22 23 100)
        = Outcome.ok (receiver100, [])
    ∧ receiver100.gatt_bearer_mtu = 100
    ∧ (packet_handler stdPlatform receiver100
        (Packet.PROVISIONING_DATA_PACKET first22 23 23)).map (fun r => r.1.gatt_bearer_mtu)
        = Outcome.ok 23
    ∧ ¬ ∃ r, packet_handler stdPlatform receiver100
          (Packet.PROVISIONING_DATA_PACKET first22 23 23) = Outcome.ok r
        ∧ receiver100.gatt_bearer_mtu ≤ r.1.gatt_bearer_mtu := by
  refine ⟨by decide, by decide, by decide, by decide, ?_⟩
  rintro ⟨r, hr, hle⟩
  have he : (packet_handler stdPlatform receiver100
      (Packet.PROVISIONING_DATA_PACKET first22 23 23)).map (fun r => r.1.gatt_bearer_mtu)
      = Outcome.ok 23 := by decide
  rw [hr] at he
  injection he with he
  have h23 : r.1.gatt_bearer_mtu = 23 := he
  rw [h23] at hle
  exact absurd hle (by decide)

/-! ## Header byte, next state, message class: claims C17, C18, C20 -/

/-- When no message byte is copied, the first byte of the segmentation buffer after
`gatt_bearer_start_sending` is the header byte `header_encode`. -/
theorem start_sending_stores_header (s : Bearer) (con_handle : Nat)
    (h0 : pdu_segment_len s = 0) :
    (start_sending_in_bounds s con_handle).1.sar_buffer
      = writeBytes s.sar_buffer 0 [header_encode s.segmentation_state s.msg_type] := by
  have hsrc : readBytes (s.proxy_pdu.deref (writeBytes s.sar_buffer 0
      [((s.segmentation_state <<< 6) ||| s.msg_type) % 256])) s.segmentation_offset 0 = [] := by
    simp [readBytes]
  have hb : writeBytes (writeBytes s.sar_buffer 0
      [((s.segmentation_state <<< 6) ||| s.msg_type) % 256]) 0
      (readBytes (s.proxy_pdu.deref (writeBytes s.sar_buffer 0
        [((s.segmentation_state <<< 6) ||| s.msg_type) % 256])) s.segmentation_offset
        (pdu_segment_len s))
      = writeBytes s.sar_buffer 0 [header_encode s.segmentation_state s.msg_type] := by
    rw [h0, hsrc]; rfl
  unfold start_sending_in_bounds start_sending_after_stores
  simp only
  split
  · exact hb
  · split <;> exact hb

/-- The header round trip on all 256 pairs. -/
theorem header_round_trip_all :
    ∀ s, s < 4 → ∀ t, t < 64 →
      header_encode s t < 256 ∧ header_sar (header_encode s t) = s
        ∧ header_type (header_encode s t) = t := by
  decide

/-- C17: for every SAR state `s` in 0..3 and every message type `t` in 0..63 the header
byte `(s << 6) | t` fits in one byte and decodes to `h >> 6 = s` and `h & 0x3F = t`; a
frame that starts with this byte leaves `t` as the stored message type in
`packet_handler`, which returns from every state with the reassembly offset within the
intact buffer. -/
theorem C17_header_round_trip (s t : Nat) (hs : s ≤ 3) (ht : t ≤ 63) :
    header_encode s t < 256
    ∧ header_sar (header_encode s t) = s
    ∧ header_type (header_encode s t) = t
    ∧ byteAt [header_encode s t] 0 >>> 6 = s
    ∧ (∀ (k : Platform) (st : Bearer) (payload : List Nat) (size att_mtu : Nat)
        (r : Bearer × List Event),
        packet_handler k st (Packet.PROVISIONING_DATA_PACKET
          (header_encode s t :: payload) size att_mtu) = Outcome.ok r → r.1.msg_type = t)
    ∧ (∀ (k : Platform) (st : Bearer) (payload : List Nat) (size att_mtu : Nat),
        k.WF → reassembly_ok k st → size ≤ 65535 →
        ∃ r, packet_handler k st (Packet.PROVISIONING_DATA_PACKET
          (header_encode s t :: payload) size att_mtu) = Outcome.ok r ∧ r.1.msg_type = t) := by
  obtain ⟨h1, h2, h3⟩ := header_round_trip_all s (by omega) t (by omega)
  have hb : ∀ payload : List Nat, byteAt (header_encode s t :: payload) 0 = header_encode s t := by
    intro payload
    show header_encode s t % 256 = _
    exact Nat.mod_eq_of_lt h1
  have hty : ∀ (k : Platform) (st : Bearer) (payload : List Nat) (size att_mtu : Nat)
      (r : Bearer × List Event),
      packet_handler k st (Packet.PROVISIONING_DATA_PACKET
        (header_encode s t :: payload) size att_mtu) = Outcome.ok r → r.1.msg_type = t := by
    intro k st payload size att_mtu r hr
    rw [(packet_handler_data_keeps k st _ size att_mtu r hr).1, hb]
    exact h3
  refine ⟨h1, h2, h3, ?_, hty, ?_⟩
  · rw [hb]; exact h2
  · intro k st payload size att_mtu hk hst hsz
    obtain ⟨r, hr, _⟩ := packet_handler_data_ok k hk st (header_encode s t :: payload) size
      att_mtu hst hsz
    exact ⟨r, hr, hty k st payload size att_mtu r hr⟩

/-- Witness for C17: LastSegment (3) of a Beacon (1) is the byte `0xC1`; received by
`receiver0` in a two-byte frame it leaves the message type 1. -/
theorem C17_header_round_trip_witness :
    header_encode 3 1 < 256
    ∧ header_sar (header_encode 3 1) = 3
    ∧ header_type (header_encode 3 1) = 1
    ∧ byteAt [header_encode 3 1] 0 >>> 6 = 3
    ∧ ∃ r, packet_handler stdPlatform receiver0 (Packet.PROVISIONING_DATA_PACKET
          (header_encode 3 1 :: [7]) 2 23) = Outcome.ok r ∧ r.1.msg_type = 1 :=
  match C17_header_round_trip 3 1 (by decide) (by decide) with
  | ⟨h1, h2, h3, h4, _, h6⟩ =>
    ⟨h1, h2, h3, h4, h6 stdPlatform receiver0 [7] 2 23 (by decide) ⟨by decide, by decide⟩ (by decide)⟩

/-- C18 (fails on the code): the 46-byte message `msg46` is sent with MTU 23.  After the
first frame the cursor is 23 and exactly `mtu = 23` bytes remain, more than `mtu - 1 = 22`,
yet the state stored for the following frame is LastSegment, not Continuation: the code
compares the remaining length with `mtu`. -/
theorem C18_next_state_compares_with_mtu :
    (gatt_bearer_send_pdu_setup sender23 (PduPtr.caller msg46) 46).segmentation_state
      = MESH_MSG_SAR_FIELD_FIRST_SEGMENT
    ∧ (gatt_bearer_send_pdu stdPlatform sender23 1 (PduPtr.caller msg46) 46).map
        (fun r => r.1.proxy_pdu_size - r.1.segmentation_offset) = Outcome.ok 23
    ∧ (gatt_bearer_send_pdu stdPlatform sender23 1 (PduPtr.caller msg46) 46).map
        (fun r => r.1.gatt_bearer_mtu - 1) = Outcome.ok 22
    ∧ (gatt_bearer_send_pdu stdPlatform sender23 1 (PduPtr.caller msg46) 46).map
        (fun r => r.1.segmentation_state) = Outcome.ok MESH_MSG_SAR_FIELD_LAST_SEGMENT
    ∧ (gatt_bearer_send_pdu stdPlatform sender23 1 (PduPtr.caller msg46) 46).map
        (fun r => r.1.segmentation_state) ≠ Outcome.ok MESH_MSG_SAR_FIELD_CONTINUE := by
  decide

/-- The round-robin loop does not touch the stored message type. -/
theorem emit_loop_msg_type (k : Platform) (countdown : Nat) :
    ∀ (s : Bearer) (r : Bearer × List Event),
      gatt_bearer_emit_loop k countdown s = Outcome.ok r → r.1.msg_type = s.msg_type := by
  induction countdown with
  | zero =>
    intro s r h
    injection h with h
    rw [← h]
  | succ c ih =>
    intro s r h
    unfold gatt_bearer_emit_loop at h
    simp only at h
    split at h <;> split at h <;>
      first
      | (have h2 := ih _ r h; exact h2)
      | (split at h <;>
          first
          | exact Outcome.noConfusion h
          | (injection h with h; rw [← h]))

/-- C20 (as amended): `gatt_bearer_send_mesh_message` and `gatt_bearer_send_mesh_beacon`
are the same function of the state and their arguments: the same result and the same
calls (so the same transmitted frames), also over the rest of the transfer.  Every state
that `gatt_bearer_send_pdu`, `gatt_bearer_start_sending` or an event other than an inbound
data frame returns has the stored `msg_type` unchanged; and `gatt_bearer_send_pdu` does
return, with `msg_type` unchanged, whenever the buffer holds the first segment
(`capacity >= 1` and `min(data_len, mtu) <= capacity`). -/
theorem C20_send_does_not_record_class (k : Platform) (s : Bearer) (data : PduPtr)
    (data_len : Nat) :
    gatt_bearer_send_mesh_message k s data data_len
        = gatt_bearer_send_mesh_beacon k s data data_len
    ∧ (gatt_bearer_send_mesh_message k s data data_len).map (fun r => frames_of r.2)
        = (gatt_bearer_send_mesh_beacon k s data data_len).map (fun r => frames_of r.2)
    ∧ (∀ fuel con_handle,
        (gatt_bearer_send_mesh_message k s data data_len).andThen
            (fun r => drain k fuel r.1 con_handle)
          = (gatt_bearer_send_mesh_beacon k s data data_len).andThen
            (fun r => drain k fuel r.1 con_handle))
    ∧ (∀ r, gatt_bearer_send_pdu k s s.gatt_bearer_con_handle data data_len = Outcome.ok r →
        r.1.msg_type = s.msg_type)
    ∧ (∀ r, gatt_bearer_send_mesh_message k s data data_len = Outcome.ok r →
        r.1.msg_type = s.msg_type)
    ∧ (∀ r, gatt_bearer_send_mesh_beacon k s data data_len = Outcome.ok r →
        r.1.msg_type = s.msg_type)
    ∧ (data_len ≤ 65535 → s.gatt_bearer_mtu ≤ 65535 → 1 ≤ k.MESH_PROV_MAX_PROXY_PDU →
        min data_len s.gatt_bearer_mtu ≤ k.MESH_PROV_MAX_PROXY_PDU →
        ∃ r, gatt_bearer_send_mesh_message k s data data_len = Outcome.ok r
          ∧ gatt_bearer_send_mesh_beacon k s data data_len = Outcome.ok r
          ∧ r.1.msg_type = s.msg_type)
    ∧ (∀ con_handle r, gatt_bearer_start_sending k s con_handle = Outcome.ok r →
        r.1.msg_type = s.msg_type)
    ∧ (∀ p : Packet, (∀ packet size att_mtu,
          p ≠ Packet.PROVISIONING_DATA_PACKET packet size att_mtu) →
        ∀ r, packet_handler k s p = Outcome.ok r → r.1.msg_type = s.msg_type) := by
  have hsend : ∀ r, gatt_bearer_send_pdu k s s.gatt_bearer_con_handle data data_len
      = Outcome.ok r → r.1.msg_type = s.msg_type :=
    fun r hr => (send_pdu_keeps k s _ data data_len r hr).2.1
  have hstart : ∀ con_handle r, gatt_bearer_start_sending k s con_handle = Outcome.ok r →
      r.1.msg_type = s.msg_type := by
    intro con_handle r hr
    rw [(start_sending_eq_ok k s con_handle r hr).1]
    exact start_sending_msg_type s con_handle
  refine ⟨rfl, rfl, fun _ _ => rfl, hsend, hsend, hsend, ?_, hstart, ?_⟩
  · intro h16 hm16 h1 hfit
    have htot : ∃ r, gatt_bearer_send_pdu k s s.gatt_bearer_con_handle data data_len
        = Outcome.ok r := by
      unfold gatt_bearer_send_pdu
      split
      · exact ⟨_, rfl⟩
      · split
        · exact ⟨_, rfl⟩
        · have hlen : pdu_segment_len (gatt_bearer_send_pdu_setup s data data_len)
              = min (data_len - 0) s.gatt_bearer_mtu :=
            pdu_segment_len_eq (gatt_bearer_send_pdu_setup s data data_len) data_len rfl
              (Nat.zero_le _) h16 hm16
          exact ⟨_, start_sending_ok k _ _ h1 (by rw [hlen]; omega)⟩
    obtain ⟨r, hr⟩ := htot
    exact ⟨r, hr, hr, hsend r hr⟩
  · intro p hp r hr
    cases p with
    | PROVISIONING_DATA_PACKET packet size att_mtu => exact absurd rfl (hp packet size att_mtu)
    | MESH_PB_TRANSPORT_LINK_OPEN cid =>
      simp only [packet_handler] at hr
      injection hr with hr
      rw [← hr]
    | MESH_PB_TRANSPORT_LINK_CLOSED cid =>
      simp only [packet_handler] at hr
      injection hr with hr
      rw [← hr]
    | MESH_SUBEVENT_CAN_SEND_NOW con_handle =>
      simp only [packet_handler] at hr
      split at hr
      · injection hr with hr
        rw [← hr]
      · split at hr
        · exact emit_loop_msg_type k NUM_TYPES s r hr
        · exact hstart con_handle r hr
    | other =>
      simp only [packet_handler] at hr
      injection hr with hr
      rw [← hr]

/-- Witness for C20: the 30-byte message `msg30` sent from `sender23` (MTU 23, so the
first segment has 23 bytes and fits the 66-byte buffer). -/
theorem C20_send_does_not_record_class_witness :
    ∃ r, gatt_bearer_send_mesh_message stdPlatform sender23 (PduPtr.caller msg30) 30
          = Outcome.ok r
      ∧ gatt_bearer_send_mesh_beacon stdPlatform sender23 (PduPtr.caller msg30) 30
          = Outcome.ok r
      ∧ r.1.msg_type = sender23.msg_type :=
  (C20_send_does_not_record_class stdPlatform sender23 (PduPtr.caller msg30) 30).2.2.2.2.2.2.1
    (by decide) (by decide) (by decide) (by decide)

/-- C20 (the claim as stated fails): in the state `receiver100` the stored MTU is 100 and
the handle is valid.  `gatt_bearer_send_mesh_message` with the 150-byte message `msg150`
copies 100 bytes into the 66-byte buffer; the copy runs past the union into the variables
behind it, `msg_type` among them, so the call has no defined resulting state, and not one
in which `msg_type` is unchanged. -/
theorem C20_long_send_overruns_msg_type :
    receiver100.gatt_bearer_mtu = 100
    ∧ receiver100.gatt_bearer_con_handle = 1
    ∧ receiver100.sar_buffer.length = stdPlatform.MESH_PROV_MAX_PROXY_PDU
    ∧ pdu_segment_len (gatt_bearer_send_pdu_setup receiver100 (PduPtr.caller msg150) 150) = 100
    ∧ gatt_bearer_send_mesh_message stdPlatform receiver100 (PduPtr.caller msg150) 150
        = Outcome.fault Fault.buffer_overrun
    ∧ gatt_bearer_send_mesh_beacon stdPlatform receiver100 (PduPtr.caller msg150) 150
        = Outcome.fault Fault.buffer_overrun
    ∧ ¬ ∃ r, gatt_bearer_send_mesh_message stdPlatform receiver100 (PduPtr.caller msg150) 150
          = Outcome.ok r ∧ r.1.msg_type = receiver100.msg_type := by
  have he : gatt_bearer_send_mesh_message stdPlatform receiver100 (PduPtr.caller msg150) 150
      = Outcome.fault Fault.buffer_overrun := by decide
  refine ⟨by decide, by decide, by decide, by decide, he, by decide, ?_⟩
  rintro ⟨r, hr, _⟩
  rw [he] at hr
  exact Outcome.noConfusion hr

/-! ## Send arbitration: claims C12 and C13 -/

/-- C12 (as amended): for a state with `last_sender` below `NUM_TYPES` (and the three
pending flags in place) `gatt_bearer_emit_can_send_now` follows the selection rule of the
specification.  If `c` is the first class with its flag set in the cyclic order after
`last_sender` and a handler is registered for `c`, the result is the same state with only
the flag of `c` cleared and `last_sender = c`, and the only call is the handler of `c`
with a `MESH_SUBEVENT_CAN_SEND_NOW` event; if no class is pending no call is made and the
state, with its flags and `last_sender`, is exactly as it was.  With no transfer active
this is what a can-send-now event on a valid handle runs. -/
theorem C12_round_robin_selection (k : Platform) (s : Bearer)
    (hls : s.last_sender < NUM_TYPES) (hlen : s.request_can_send_now.length = NUM_TYPES) :
    (∀ c, spec_first_pending s.request_can_send_now s.last_sender = some c →
        s.client_callbacks.getD c false = true →
        gatt_bearer_emit_can_send_now k s
          = Outcome.ok ({ s with last_sender := c
                                 request_can_send_now := s.request_can_send_now.set c 0 },
              [Event.client_callback c
                [k.HCI_EVENT_MESH_META, 1, k.MESH_SUBEVENT_CAN_SEND_NOW]]))
    ∧ (spec_first_pending s.request_can_send_now s.last_sender = none →
        gatt_bearer_emit_can_send_now k s = Outcome.ok (s, []))
    ∧ (∀ con_handle, con_handle ≠ k.HCI_CON_HANDLE_INVALID → s.outgoing_ready = 0 →
        packet_handler k s (Packet.MESH_SUBEVENT_CAN_SEND_NOW con_handle)
          = gatt_bearer_emit_can_send_now k s) := by
  refine ⟨?_, ?_, ?_⟩
  · obtain ⟨cb, flags, ls, buf, pp, ps, orr, ro, so, ss, mt, mtu, ch⟩ := s
    simp only at hls hlen ⊢
    match flags, hlen with
    | [a, b, c], _ =>
      have hl : ls = 0 ∨ ls = 1 ∨ ls = 2 := by unfold NUM_TYPES at hls; omega
      intro g hg hreg
      rcases hl with h | h | h <;> subst h <;>
        by_cases ha : a = 0 <;> by_cases hb : b = 0 <;> by_cases hc : c = 0 <;>
        simp [spec_first_pending, NUM_TYPES, List.range, List.range.loop, ha, hb, hc] at hg <;>
        subst hg <;>
        simp [gatt_bearer_emit_can_send_now, gatt_bearer_emit_loop, NUM_TYPES, ha, hb, hc] <;>
        simpa using hreg
  · obtain ⟨cb, flags, ls, buf, pp, ps, orr, ro, so, ss, mt, mtu, ch⟩ := s
    simp only at hls hlen ⊢
    match flags, hlen with
    | [a, b, c], _ =>
      have hl : ls = 0 ∨ ls = 1 ∨ ls = 2 := by unfold NUM_TYPES at hls; omega
      intro hg
      rcases hl with h | h | h <;> subst h <;>
        by_cases ha : a = 0 <;> by_cases hb : b = 0 <;> by_cases hc : c = 0 <;>
        simp [spec_first_pending, NUM_TYPES, List.range, List.range.loop, ha, hb, hc] at hg <;>
        simp [gatt_bearer_emit_can_send_now, gatt_bearer_emit_loop, NUM_TYPES, ha, hb, hc]
  · intro con_handle hh hr
    show (if con_handle = k.HCI_CON_HANDLE_INVALID then _ else _) = _
    rw [if_neg hh, if_pos hr]

/-- Witness for C12: at the receiver after link-open (`last_sender = 0`, both handlers
registered) the message and the beacon class both ask to send; the beacon class, first
after class 0, is granted.  With nothing pending the state is returned as it was. -/
theorem C12_round_robin_selection_witness :
    gatt_bearer_emit_can_send_now stdPlatform
        (request_all receiver23 [MESH_MESSAGE_ID, MESH_BEACON_ID])
      = Outcome.ok ({ request_all receiver23 [MESH_MESSAGE_ID, MESH_BEACON_ID] with
            last_sender := 1
            request_can_send_now :=
              (request_all receiver23
                [MESH_MESSAGE_ID, MESH_BEACON_ID]).request_can_send_now.set 1 0 },
          [Event.client_callback 1
            [stdPlatform.HCI_EVENT_MESH_META, 1, stdPlatform.MESH_SUBEVENT_CAN_SEND_NOW]])
    ∧ gatt_bearer_emit_can_send_now stdPlatform receiver23 = Outcome.ok (receiver23, []) :=
  ⟨(C12_round_robin_selection stdPlatform
      (request_all receiver23 [MESH_MESSAGE_ID, MESH_BEACON_ID]) (by decide) (by decide)).1 1
      (by decide) (by decide),
   (C12_round_robin_selection stdPlatform receiver23 (by decide) (by decide)).2.1 (by decide)⟩

/-- C12 (the claim as stated fails): after link-open on connection 1 with no handler
registered (`sender23`), `gatt_bearer_request_can_send_now_for_mesh_message` sets the
flag of the message class, which is then the first pending class after `last_sender = 0`.
The can-send-now event runs the loop, which clears the flag and calls through
`client_callbacks[0]`, a null pointer: no handler is invoked and there is no resulting
state with `last_sender = 0`.  The same happens at the receiver `receiver23`, with both
handlers registered, when the flag of the third class is set: no function of the file
registers a handler for it. -/
theorem C12_grant_without_handler_faults :
    sender23.last_sender < NUM_TYPES
    ∧ sender23.outgoing_ready = 0
    ∧ sender23.client_callbacks = [false, false, false]
    ∧ spec_first_pending
        (gatt_bearer_request sender23 MESH_MESSAGE_ID).1.request_can_send_now
        (gatt_bearer_request sender23 MESH_MESSAGE_ID).1.last_sender = some MESH_MESSAGE_ID
    ∧ gatt_bearer_emit_can_send_now stdPlatform (gatt_bearer_request sender23 MESH_MESSAGE_ID).1
        = Outcome.fault Fault.null_handler
    ∧ packet_handler stdPlatform (gatt_bearer_request sender23 MESH_MESSAGE_ID).1
        (Packet.MESH_SUBEVENT_CAN_SEND_NOW 1) = Outcome.fault Fault.null_handler
    ∧ (¬ ∃ r, gatt_bearer_emit_can_send_now stdPlatform
          (gatt_bearer_request sender23 MESH_MESSAGE_ID).1 = Outcome.ok r
        ∧ r.1.last_sender = MESH_MESSAGE_ID)
    ∧ receiver23.client_callbacks = [true, true, false]
    ∧ spec_first_pending (gatt_bearer_request receiver23 PB_ADV_ID).1.request_can_send_now
        (gatt_bearer_request receiver23 PB_ADV_ID).1.last_sender = some PB_ADV_ID
    ∧ gatt_bearer_emit_can_send_now stdPlatform (gatt_bearer_request receiver23 PB_ADV_ID).1
        = Outcome.fault Fault.null_handler := by
  have he : gatt_bearer_emit_can_send_now stdPlatform
      (gatt_bearer_request sender23 MESH_MESSAGE_ID).1 = Outcome.fault Fault.null_handler := by
    decide
  refine ⟨by decide, by decide, by decide, by decide, he, by decide, ?_, by decide, by decide,
    by decide⟩
  rintro ⟨r, hr, _⟩
  rw [he] at hr
  exact Outcome.noConfusion hr

/-- One opportunity with the message and beacon classes pending, both with a handler, and
the third class not pending: the beacon class is granted after the message class, the
message class otherwise. -/
theorem grant_eval_two (k : Platform) (s : Bearer) (con_handle : Nat)
    (hh : con_handle ≠ k.HCI_CON_HANDLE_INVALID) (hs : sched_ok s)
    (hm : s.client_callbacks.getD MESH_MESSAGE_ID false = true)
    (hb : s.client_callbacks.getD MESH_BEACON_ID false = true)
    (h2 : s.request_can_send_now.getD PB_ADV_ID 0 = 0) :
    packet_handler k (request_all s [MESH_MESSAGE_ID, MESH_BEACON_ID])
        (Packet.MESH_SUBEVENT_CAN_SEND_NOW con_handle)
      = Outcome.ok ({ s with request_can_send_now :=
                               ([1, 1, 0] : List Nat).set (if s.last_sender = 0 then 1 else 0) 0
                             last_sender := (if s.last_sender = 0 then 1 else 0) },
          [Event.client_callback (if s.last_sender = 0 then 1 else 0)
            [k.HCI_EVENT_MESH_META, 1, k.MESH_SUBEVENT_CAN_SEND_NOW]]) := by
  obtain ⟨hr, hls, hlen⟩ := hs
  obtain ⟨cb, flags, ls, buf, pp, ps, orr, ro, so, ss, mt, mtu, ch⟩ := s
  simp only at hr hls hlen h2 hm hb ⊢
  subst hr
  match flags, hlen with
  | [a, b, c], _ =>
    have hc : c = 0 := by simpa [PB_ADV_ID] using h2
    subst hc
    have hm2 : cb.getD 0 false = true := hm
    have hb2 : cb.getD 1 false = true := hb
    have hl : ls = 0 ∨ ls = 1 ∨ ls = 2 := by unfold NUM_TYPES at hls; omega
    rcases hl with h | h | h <;> subst h <;>
      simp [request_all, gatt_bearer_request, packet_handler,
        gatt_bearer_emit_can_send_now, gatt_bearer_emit_loop, NUM_TYPES, MESH_MESSAGE_ID,
        MESH_BEACON_ID, PB_ADV_ID, hh] <;>
      first
      | simpa using hm2
      | simpa using hb2

/-- A run with the message and beacon classes pending starts with the beacon class after
the message class and with the message class otherwise, and goes on from an idle
scheduler, with the same handlers, whose `last_sender` is the class granted. -/
theorem grant_step_two (k : Platform) (s : Bearer) (con_handle : Nat)
    (hh : con_handle ≠ k.HCI_CON_HANDLE_INVALID) (hs : sched_ok s)
    (hm : s.client_callbacks.getD MESH_MESSAGE_ID false = true)
    (hb : s.client_callbacks.getD MESH_BEACON_ID false = true)
    (h2 : s.request_can_send_now.getD PB_ADV_ID 0 = 0) :
    ∃ s', sched_ok s' ∧ s'.client_callbacks = s.client_callbacks
      ∧ s'.request_can_send_now.getD PB_ADV_ID 0 = 0
      ∧ s'.last_sender = (if s.last_sender = 0 then 1 else 0)
      ∧ ∀ m, grant_run k [MESH_MESSAGE_ID, MESH_BEACON_ID] con_handle (m + 1) s
          = (grant_run k [MESH_MESSAGE_ID, MESH_BEACON_ID] con_handle m s').map
              (fun g => (if s.last_sender = 0 then 1 else 0) :: g) := by
  have he := grant_eval_two k s con_handle hh hs hm hb h2
  refine ⟨{ s with request_can_send_now :=
                     ([1, 1, 0] : List Nat).set (if s.last_sender = 0 then 1 else 0) 0
                   last_sender := (if s.last_sender = 0 then 1 else 0) }, ?_, rfl, ?_, rfl, ?_⟩
  · unfold sched_ok
    refine ⟨hs.1, ?_, ?_⟩
    · show (if s.last_sender = 0 then 1 else 0) < NUM_TYPES
      split <;> decide
    · show (([1, 1, 0] : List Nat).set (if s.last_sender = 0 then 1 else 0) 0).length
        = NUM_TYPES
      rw [List.length_set]; rfl
  · show (([1, 1, 0] : List Nat).set (if s.last_sender = 0 then 1 else 0) 0).getD PB_ADV_ID 0 = 0
    split <;> rfl
  · intro m
    show (packet_handler k _ _).andThen _ = _
    rw [he, Outcome.andThen_ok]
    rfl

/-- A run of `n` opportunities with the message and beacon classes pending and their
handlers registered grants `n` classes, each the message or the beacon class, and every
window of two consecutive grants has each of the two once. -/
theorem grant_run_two (k : Platform) (con_handle : Nat)
    (hh : con_handle ≠ k.HCI_CON_HANDLE_INVALID) (n : Nat) :
    ∀ s : Bearer, sched_ok s →
      s.client_callbacks.getD MESH_MESSAGE_ID false = true →
      s.client_callbacks.getD MESH_BEACON_ID false = true →
      s.request_can_send_now.getD PB_ADV_ID 0 = 0 →
      ∃ gs, grant_run k [MESH_MESSAGE_ID, MESH_BEACON_ID] con_handle n s = Outcome.ok gs
        ∧ gs.length = n
        ∧ (∀ c ∈ gs, c = MESH_MESSAGE_ID ∨ c = MESH_BEACON_ID)
        ∧ ∀ i, i + 2 ≤ n →
            ((gs.drop i).take 2).count MESH_MESSAGE_ID = 1
            ∧ ((gs.drop i).take 2).count MESH_BEACON_ID = 1 := by
  induction n with
  | zero =>
    intro s _ _ _ _
    refine ⟨[], rfl, rfl, ?_, ?_⟩
    · intro c hc; exact absurd hc (List.not_mem_nil c)
    · intro i hi; omega
  | succ m ih =>
    intro s hs hm hb hp
    obtain ⟨s1, h1, c1, p1, e1, r1⟩ := grant_step_two k s con_handle hh hs hm hb hp
    obtain ⟨gs, hgs, ihl, ihm, ihw⟩ := ih s1 h1 (by rw [c1]; exact hm) (by rw [c1]; exact hb) p1
    refine ⟨(if s.last_sender = 0 then 1 else 0) :: gs, ?_, ?_, ?_, ?_⟩
    · rw [r1 m, hgs]; rfl
    · rw [List.length_cons, ihl]
    · intro c hc
      rcases List.mem_cons.mp hc with h | h
      · rw [h]; split
        · exact Or.inr rfl
        · exact Or.inl rfl
      · exact ihm c h
    · intro i hi
      cases i with
      | succ j =>
        rw [List.drop_succ_cons]
        exact ihw j (by omega)
      | zero =>
        obtain ⟨m2, rfl⟩ : ∃ m2, m = m2 + 1 := ⟨m - 1, by omega⟩
        obtain ⟨s2, h2, c2, p2, e2, r2⟩ := grant_step_two k s1 con_handle hh h1
          (by rw [c1]; exact hm) (by rw [c1]; exact hb) p1
        rw [r2 m2] at hgs
        obtain ⟨g2, _, hg2⟩ := Outcome.map_eq_ok _ _ _ hgs
        rw [← hg2]
        show List.count MESH_MESSAGE_ID [(if s.last_sender = 0 then 1 else 0),
            (if s1.last_sender = 0 then 1 else 0)] = 1
          ∧ List.count MESH_BEACON_ID [(if s.last_sender = 0 then 1 else 0),
            (if s1.last_sender = 0 then 1 else 0)] = 1
        rw [e1]
        by_cases h : s.last_sender = 0
        · rw [if_pos h]; decide
        · rw [if_neg h]; decide

/-- Reading back what was just stored at offset 0 gives the stored bytes. -/
theorem readBytes_writeBytes_zero (mem data : List Nat) :
    readBytes (writeBytes mem 0 data) 0 data.length = data := by
  unfold writeBytes
  split
  · next h0 =>
    have : data = [] := List.length_eq_zero.mp h0
    subst this
    simp [readBytes]
  · simp [readBytes]

/-- One call of `gatt_bearer_start_sending` inside the buffer, for a transfer of `L`
bytes: the cursor advances by `min(remaining, mtu)` and one frame is handed over; a
terminal state ends the transfer, a non-terminal one stores the next state and asks for
one more opportunity.  For a message in caller memory the frame is the next
`min(remaining, mtu)` message bytes. -/
theorem start_sending_step (s : Bearer) (con_handle : Nat) (L : Nat)
    (hsz : s.proxy_pdu_size = L) (hoff : s.segmentation_offset ≤ L) (hL : L ≤ 65535)
    (hm : s.gatt_bearer_mtu ≤ 65535) :
    ∃ buf frame,
      ((s.segmentation_state = MESH_MSG_SAR_FIELD_COMPLETE_MSG
          ∨ s.segmentation_state = MESH_MSG_SAR_FIELD_LAST_SEGMENT) →
        start_sending_in_bounds s con_handle
          = ({ s with sar_buffer := buf
                      segmentation_offset := s.segmentation_offset
                        + min (L - s.segmentation_offset) s.gatt_bearer_mtu
                      outgoing_ready := 0 },
              [Event.send_proxy_pdu con_handle frame]))
      ∧ ((s.segmentation_state = MESH_MSG_SAR_FIELD_CONTINUE
          ∨ s.segmentation_state = MESH_MSG_SAR_FIELD_FIRST_SEGMENT) →
        start_sending_in_bounds s con_handle
          = ({ s with sar_buffer := buf
                      segmentation_offset := s.segmentation_offset
                        + min (L - s.segmentation_offset) s.gatt_bearer_mtu
                      segmentation_state :=
                        if L - (s.segmentation_offset
                            + min (L - s.segmentation_offset) s.gatt_bearer_mtu)
                          > s.gatt_bearer_mtu
                        then MESH_MSG_SAR_FIELD_CONTINUE else MESH_MSG_SAR_FIELD_LAST_SEGMENT },
              [Event.send_proxy_pdu con_handle frame,
               Event.request_can_send_now con_handle]))
      ∧ (∀ mem, s.proxy_pdu = PduPtr.caller mem → mem.length = L →
          frame = (mem.drop s.segmentation_offset).take
            (min (L - s.segmentation_offset) s.gatt_bearer_mtu)) := by
  have hlen := pdu_segment_len_eq s L hsz hoff hL hm
  have hmod : (s.segmentation_offset
      + min (L - s.segmentation_offset) s.gatt_bearer_mtu) % 65536
      = s.segmentation_offset + min (L - s.segmentation_offset) s.gatt_bearer_mtu :=
    Nat.mod_eq_of_lt (by omega)
  have hcond : ((s.proxy_pdu_size : Int) - ((s.segmentation_offset
        + min (L - s.segmentation_offset) s.gatt_bearer_mtu : Nat) : Int)
        > (s.gatt_bearer_mtu : Int))
      ↔ (L - (s.segmentation_offset
        + min (L - s.segmentation_offset) s.gatt_bearer_mtu) > s.gatt_bearer_mtu) := by
    rw [hsz]; omega
  refine ⟨writeBytes (writeBytes s.sar_buffer 0
      [((s.segmentation_state <<< 6) ||| s.msg_type) % 256]) 0
      (readBytes (s.proxy_pdu.deref (writeBytes s.sar_buffer 0
        [((s.segmentation_state <<< 6) ||| s.msg_type) % 256])) s.segmentation_offset
        (min (L - s.segmentation_offset) s.gatt_bearer_mtu)),
    readBytes (writeBytes (writeBytes s.sar_buffer 0
      [((s.segmentation_state <<< 6) ||| s.msg_type) % 256]) 0
      (readBytes (s.proxy_pdu.deref (writeBytes s.sar_buffer 0
        [((s.segmentation_state <<< 6) ||| s.msg_type) % 256])) s.segmentation_offset
        (min (L - s.segmentation_offset) s.gatt_bearer_mtu))) 0
      (min (L - s.segmentation_offset) s.gatt_bearer_mtu), ?_, ?_, ?_⟩
  · intro hst
    unfold start_sending_in_bounds start_sending_after_stores
    simp only [hlen, hmod, if_pos hst]
  · intro hst
    have hn : ¬ (s.segmentation_state = MESH_MSG_SAR_FIELD_COMPLETE_MSG
        ∨ s.segmentation_state = MESH_MSG_SAR_FIELD_LAST_SEGMENT) := by
      rcases hst with h | h <;> rw [h] <;> decide
    unfold start_sending_in_bounds start_sending_after_stores
    simp only [hlen, hmod, if_neg hn, if_pos hst, hcond]
  · intro mem hp hml
    have hsrc : readBytes (s.proxy_pdu.deref (writeBytes s.sar_buffer 0
        [((s.segmentation_state <<< 6) ||| s.msg_type) % 256])) s.segmentation_offset
        (min (L - s.segmentation_offset) s.gatt_bearer_mtu)
        = (mem.drop s.segmentation_offset).take
            (min (L - s.segmentation_offset) s.gatt_bearer_mtu) := by
      rw [hp]
      show readBytes mem _ _ = _
      exact readBytes_of_le _ _ _ (by omega)
    have hsl : ((mem.drop s.segmentation_offset).take
        (min (L - s.segmentation_offset) s.gatt_bearer_mtu)).length
        = min (L - s.segmentation_offset) s.gatt_bearer_mtu := by
      simp only [List.length_take, List.length_drop]; omega
    rw [hsrc]
    have h := readBytes_writeBytes_zero (writeBytes s.sar_buffer 0
      [((s.segmentation_state <<< 6) ||| s.msg_type) % 256])
      ((mem.drop s.segmentation_offset).take
        (min (L - s.segmentation_offset) s.gatt_bearer_mtu))
    rw [hsl] at h
    exact h

/-- A finished transfer is left alone by the drain. -/
theorem drain_done (k : Platform) (fuel : Nat) (s : Bearer) (con_handle : Nat)
    (h : s.outgoing_ready = 0) :
    drain k fuel s con_handle = Outcome.ok (s, []) := by
  cases fuel with
  | zero => rfl
  | succ f => unfold drain; rw [if_pos h]

/-- The frames of two lists of calls in a row. -/
theorem frames_of_append (a b : List Event) : frames_of (a ++ b) = frames_of a ++ frames_of b := by
  unfold frames_of; exact List.filterMap_append _ _ _

/-- The requests of two lists of calls in a row. -/
theorem requests_of_append (a b : List Event) :
    requests_of (a ++ b) = requests_of a + requests_of b := by
  unfold requests_of; rw [List.filter_append, List.length_append]

/-- One step of the drain while the transfer is active and the segment fits the
buffer. -/
theorem drain_step (k : Platform) (f : Nat) (s : Bearer) (con_handle : Nat) (s' : Bearer)
    (evs : List Event) (h : s.outgoing_ready ≠ 0) (h1 : 1 ≤ k.MESH_PROV_MAX_PROXY_PDU)
    (h2 : pdu_segment_len s ≤ k.MESH_PROV_MAX_PROXY_PDU)
    (hr : start_sending_in_bounds s con_handle = (s', evs)) :
    drain k (f + 1) s con_handle
      = (drain k f s' con_handle).map fun r2 => (r2.1, evs ++ r2.2) := by
  show (if s.outgoing_ready = 0 then _ else _) = _
  rw [if_neg h, start_sending_ok k s con_handle h1 h2, hr]
  rfl

/-- Draining a transfer that is under way, with enough fuel: the transfer ends, each
frame but the last was followed by one request, and for a message in caller memory the
frames are the rest of the message in order. -/
theorem drain_transfer (k : Platform) (con_handle : Nat) (pdu : PduPtr) (L m : Nat)
    (hL : L ≤ 65535) (hm1 : 1 ≤ m) (hm : m ≤ 65535) (hmc : m ≤ k.MESH_PROV_MAX_PROXY_PDU) :
    ∀ (fuel : Nat) (s : Bearer), in_transfer pdu L s → s.gatt_bearer_mtu = m →
      (L - s.segmentation_offset) / m + 1 ≤ fuel →
      ∃ r, drain k fuel s con_handle = Outcome.ok r
        ∧ r.1.outgoing_ready = 0
        ∧ (frames_of r.2).length ≤ (L - s.segmentation_offset) / m + 1
        ∧ requests_of r.2 + 1 = (frames_of r.2).length
        ∧ (∀ mem, pdu = PduPtr.caller mem → mem.length = L →
            (frames_of r.2).flatten = mem.drop s.segmentation_offset) := by
  intro fuel
  induction fuel with
  | zero => intro s _ _ hf; exact absurd hf (Nat.not_succ_le_zero _)
  | succ f ih =>
    intro s hs hmtu hf
    obtain ⟨hp, hsz, hoff, hrdy, hst⟩ := hs
    have hne : s.outgoing_ready ≠ 0 := by rw [hrdy]; decide
    obtain ⟨buf, frame, hterm, hcont, hfr⟩ :=
      start_sending_step s con_handle L hsz hoff hL (by omega)
    have hseg : pdu_segment_len s ≤ k.MESH_PROV_MAX_PROXY_PDU := by
      rw [pdu_segment_len_eq s L hsz hoff hL (by omega)]; omega
    by_cases hrem : L - s.segmentation_offset > s.gatt_bearer_mtu
    · rw [if_pos hrem] at hst
      have hr := hcont (Or.inl hst)
      have hmin : min (L - s.segmentation_offset) s.gatt_bearer_mtu
          = s.gatt_bearer_mtu := by omega
      rw [hmin] at hr hfr
      have hs' : in_transfer pdu L
          { s with sar_buffer := buf
                   segmentation_offset := s.segmentation_offset + s.gatt_bearer_mtu
                   segmentation_state :=
                     if L - (s.segmentation_offset + s.gatt_bearer_mtu)
                       > s.gatt_bearer_mtu
                     then MESH_MSG_SAR_FIELD_CONTINUE else MESH_MSG_SAR_FIELD_LAST_SEGMENT } :=
        ⟨hp, hsz, by show s.segmentation_offset + s.gatt_bearer_mtu ≤ L; omega,
          hrdy, rfl⟩
      have hdiv : (L - s.segmentation_offset) / m
          = (L - (s.segmentation_offset + s.gatt_bearer_mtu)) / m + 1 := by
        rw [Nat.div_eq (L - s.segmentation_offset) m, if_pos ⟨by omega, by omega⟩]
        rw [hmtu]
        congr 2
        omega
      obtain ⟨r, hd, i1, i3, i4, i2⟩ := ih _ hs' hmtu (by
        show (L - (s.segmentation_offset + s.gatt_bearer_mtu)) / m + 1 ≤ f
        omega)
      rw [drain_step k f s con_handle _ _ hne (by omega) hseg hr, hd]
      refine ⟨(r.1, [Event.send_proxy_pdu con_handle frame,
        Event.request_can_send_now con_handle] ++ r.2), rfl, i1, ?_, ?_, ?_⟩
      · simp only [frames_of_append]
        show (frame :: frames_of r.2).length ≤ _
        rw [List.length_cons, hdiv]
        exact Nat.succ_le_succ i3
      · simp only [frames_of_append, requests_of_append]
        show 1 + requests_of r.2 + 1 = (frame :: frames_of r.2).length
        rw [List.length_cons]
        omega
      · intro mem hpm hml
        have hf2 := hfr mem (hp.trans hpm) hml
        have hd2 := i2 mem hpm hml
        simp only [frames_of_append]
        show (frame :: frames_of r.2).flatten = _
        rw [List.flatten_cons, hd2, hf2]
        show _ ++ mem.drop (s.segmentation_offset + s.gatt_bearer_mtu) = _
        have hdd : mem.drop (s.segmentation_offset + s.gatt_bearer_mtu)
            = (mem.drop s.segmentation_offset).drop s.gatt_bearer_mtu := by
          rw [List.drop_drop, Nat.add_comm]
        rw [hdd, List.take_append_drop]
    · rw [if_neg hrem] at hst
      have hr := hterm (Or.inr hst)
      have hmin : min (L - s.segmentation_offset) s.gatt_bearer_mtu
          = L - s.segmentation_offset := by omega
      rw [hmin] at hr hfr
      rw [drain_step k f s con_handle _ _ hne (by omega) hseg hr,
        drain_done k f _ con_handle rfl]
      refine ⟨_, rfl, rfl, ?_, rfl, ?_⟩
      · exact Nat.le_add_left 1 _
      · intro mem hpm hml
        have hf2 := hfr mem (hp.trans hpm) hml
        show [frame].flatten = _
        rw [hf2, ← hml]
        simp

/-- At every point of the drain the cursor is within the message. -/
theorem drain_offset (k : Platform) (con_handle : Nat) (pdu : PduPtr) (L : Nat)
    (hL : L ≤ 65535) (h1 : 1 ≤ k.MESH_PROV_MAX_PROXY_PDU) :
    ∀ (fuel : Nat) (s : Bearer), in_transfer pdu L s → s.gatt_bearer_mtu ≤ 65535 →
      s.gatt_bearer_mtu ≤ k.MESH_PROV_MAX_PROXY_PDU →
      ∃ r, drain k fuel s con_handle = Outcome.ok r
        ∧ r.1.segmentation_offset ≤ r.1.proxy_pdu_size := by
  intro fuel
  induction fuel with
  | zero =>
    intro s hs _ _
    refine ⟨(s, []), rfl, ?_⟩
    show s.segmentation_offset ≤ s.proxy_pdu_size
    rw [hs.2.1]; exact hs.2.2.1
  | succ f ih =>
    intro s hs hm hmc
    obtain ⟨hp, hsz, hoff, hrdy, hst⟩ := hs
    have hne : s.outgoing_ready ≠ 0 := by rw [hrdy]; decide
    obtain ⟨buf, frame, hterm, hcont, _⟩ := start_sending_step s con_handle L hsz hoff hL hm
    have hseg : pdu_segment_len s ≤ k.MESH_PROV_MAX_PROXY_PDU := by
      rw [pdu_segment_len_eq s L hsz hoff hL hm]; omega
    by_cases hrem : L - s.segmentation_offset > s.gatt_bearer_mtu
    · rw [if_pos hrem] at hst
      have hr := hcont (Or.inl hst)
      have hs' : in_transfer pdu L
          { s with sar_buffer := buf
                   segmentation_offset := s.segmentation_offset
                     + min (L - s.segmentation_offset) s.gatt_bearer_mtu
                   segmentation_state :=
                     if L - (s.segmentation_offset
                         + min (L - s.segmentation_offset) s.gatt_bearer_mtu)
                       > s.gatt_bearer_mtu
                     then MESH_MSG_SAR_FIELD_CONTINUE else MESH_MSG_SAR_FIELD_LAST_SEGMENT } :=
        ⟨hp, hsz, by
          show s.segmentation_offset
            + min (L - s.segmentation_offset) s.gatt_bearer_mtu ≤ L
          omega, hrdy, rfl⟩
      obtain ⟨r, hd, hle⟩ := ih _ hs' hm hmc
      rw [drain_step k f s con_handle _ _ hne h1 hseg hr, hd]
      exact ⟨_, rfl, hle⟩
    · rw [if_neg hrem] at hst
      have hr := hterm (Or.inr hst)
      rw [drain_step k f s con_handle _ _ hne h1 hseg hr, drain_done k f _ con_handle rfl]
      refine ⟨_, rfl, ?_⟩
      show s.segmentation_offset
        + min (L - s.segmentation_offset) s.gatt_bearer_mtu ≤ s.proxy_pdu_size
      omega

/-- C19 (as amended): for a stored MTU between 1 and the capacity, a valid handle and a
non-empty message of length `L <= 65535` (`L` bytes of caller memory, or the first
`L <= capacity` bytes of the shared buffer), `gatt_bearer_send_pdu` followed by one
`gatt_bearer_start_sending` call per requested send opportunity ends the transfer
(`outgoing_ready = 0`) within `L / mtu + 1` further calls, so with at most `L / mtu + 2`
frames; every frame but the last is followed by exactly one request; at every point of
the run the cursor `segmentation_offset` is at most `proxy_pdu_size`; and when the
message lies in caller memory the concatenation of the transmitted frames, in order, is
the message. -/
theorem C19_segmentation_terminates (k : Platform) (hk : k.WF) (s : Bearer)
    (con_handle : Nat) (pdu : PduPtr) (L : Nat)
    (hm1 : 1 ≤ s.gatt_bearer_mtu) (hmc : s.gatt_bearer_mtu ≤ k.MESH_PROV_MAX_PROXY_PDU)
    (hh : con_handle ≠ k.HCI_CON_HANDLE_INVALID)
    (hL1 : 1 ≤ L) (hL : L ≤ 65535)
    (hpdu : (∃ mem, pdu = PduPtr.caller mem ∧ mem.length = L)
      ∨ (pdu = PduPtr.sar ∧ L ≤ k.MESH_PROV_MAX_PROXY_PDU)) :
    (∃ r, send_all k (L / s.gatt_bearer_mtu + 1) s con_handle pdu L = Outcome.ok r
      ∧ r.1.outgoing_ready = 0
      ∧ (frames_of r.2).length ≤ L / s.gatt_bearer_mtu + 2
      ∧ requests_of r.2 + 1 = (frames_of r.2).length
      ∧ (∀ mem, pdu = PduPtr.caller mem → (frames_of r.2).flatten = mem))
    ∧ ∀ fuel, ∃ r, send_all k fuel s con_handle pdu L = Outcome.ok r
        ∧ r.1.segmentation_offset ≤ r.1.proxy_pdu_size := by
  have hm : s.gatt_bearer_mtu ≤ 65535 := le_trans hmc hk.1
  have h0 : L ≠ 0 := by omega
  have hc1 : 1 ≤ k.MESH_PROV_MAX_PROXY_PDU := le_trans hm1 hmc
  have hnull : pdu ≠ PduPtr.null := by
    rcases hpdu with ⟨mem, h, _⟩ | ⟨h, _⟩ <;> rw [h] <;> exact PduPtr.noConfusion
  have hmemlen : ∀ mem, pdu = PduPtr.caller mem → mem.length = L := by
    intro mem hpm
    rcases hpdu with ⟨mem2, h, hl⟩ | ⟨h, _⟩
    · rw [h] at hpm
      injection hpm with hpm
      rw [← hpm]; exact hl
    · rw [h] at hpm
      exact PduPtr.noConfusion hpm
  have hseg : pdu_segment_len (gatt_bearer_send_pdu_setup s pdu L)
      ≤ k.MESH_PROV_MAX_PROXY_PDU := by
    have := pdu_segment_len_eq (gatt_bearer_send_pdu_setup s pdu L) L rfl (Nat.zero_le _) hL hm
    have hmtu0 : (gatt_bearer_send_pdu_setup s pdu L).gatt_bearer_mtu = s.gatt_bearer_mtu := rfl
    rw [this, hmtu0]
    omega
  have hall : ∀ (fuel : Nat) (s' : Bearer) (evs : List Event),
      start_sending_in_bounds (gatt_bearer_send_pdu_setup s pdu L) con_handle = (s', evs) →
      send_all k fuel s con_handle pdu L
        = (drain k fuel s' con_handle).map fun r2 => (r2.1, evs ++ r2.2) := by
    intro fuel s' evs hse
    have hsend : gatt_bearer_send_pdu k s con_handle pdu L
        = gatt_bearer_start_sending k (gatt_bearer_send_pdu_setup s pdu L) con_handle := by
      simp [gatt_bearer_send_pdu, hnull, h0, hh]
    show (gatt_bearer_send_pdu k s con_handle pdu L).andThen _ = _
    rw [hsend, start_sending_ok k _ con_handle hc1 hseg, hse]
    rfl
  obtain ⟨buf, frame, hterm, hcont, hfr⟩ := start_sending_step
    (gatt_bearer_send_pdu_setup s pdu L) con_handle L rfl (Nat.zero_le _) hL hm
  have hoff0 : (gatt_bearer_send_pdu_setup s pdu L).segmentation_offset = 0 := rfl
  have hmtu0 : (gatt_bearer_send_pdu_setup s pdu L).gatt_bearer_mtu = s.gatt_bearer_mtu := rfl
  have hpp0 : (gatt_bearer_send_pdu_setup s pdu L).proxy_pdu = pdu := rfl
  rw [hoff0, hmtu0] at hterm hcont hfr
  rw [hpp0] at hfr
  simp only [Nat.zero_add, Nat.sub_zero, List.drop_zero] at hterm hcont hfr
  by_cases hfit : L ≤ s.gatt_bearer_mtu - 1
  · have hst : (gatt_bearer_send_pdu_setup s pdu L).segmentation_state
        = MESH_MSG_SAR_FIELD_COMPLETE_MSG := by
      have : ¬ ((L : Int) > (s.gatt_bearer_mtu : Int) - 1) := by omega
      simp [gatt_bearer_send_pdu_setup, this]
    have hr := hterm (Or.inl hst)
    have hmin : min L s.gatt_bearer_mtu = L := by omega
    rw [hmin] at hr hfr
    have hfin : ∀ fuel, send_all k fuel s con_handle pdu L
        = Outcome.ok ({ gatt_bearer_send_pdu_setup s pdu L with
              sar_buffer := buf, segmentation_offset := L, outgoing_ready := 0 },
            [Event.send_proxy_pdu con_handle frame]) := by
      intro fuel
      rw [hall fuel _ _ hr, drain_done k fuel _ con_handle rfl]
      rfl
    refine ⟨⟨_, hfin _, rfl, ?_, rfl, ?_⟩, ?_⟩
    · exact Nat.succ_le_succ (Nat.zero_le _)
    · intro mem hpm
      show [frame].flatten = mem
      rw [hfr mem hpm (hmemlen mem hpm), ← hmemlen mem hpm]
      simp
    · intro fuel
      exact ⟨_, hfin fuel, Nat.le_refl _⟩
  · have hst : (gatt_bearer_send_pdu_setup s pdu L).segmentation_state
        = MESH_MSG_SAR_FIELD_FIRST_SEGMENT := by
      have : (L : Int) > (s.gatt_bearer_mtu : Int) - 1 := by omega
      simp [gatt_bearer_send_pdu_setup, this]
    have hr := hcont (Or.inr hst)
    have hmin : min L s.gatt_bearer_mtu = s.gatt_bearer_mtu := by omega
    rw [hmin] at hr hfr
    have hin : in_transfer pdu L
        { gatt_bearer_send_pdu_setup s pdu L with
            sar_buffer := buf
            segmentation_offset := s.gatt_bearer_mtu
            segmentation_state :=
              if L - s.gatt_bearer_mtu > s.gatt_bearer_mtu
              then MESH_MSG_SAR_FIELD_CONTINUE else MESH_MSG_SAR_FIELD_LAST_SEGMENT } :=
      ⟨rfl, rfl, by show s.gatt_bearer_mtu ≤ L; omega, rfl, rfl⟩
    have hfuel : (L - s.gatt_bearer_mtu) / s.gatt_bearer_mtu + 1
        ≤ L / s.gatt_bearer_mtu + 1 :=
      Nat.succ_le_succ (Nat.div_le_div_right (Nat.sub_le _ _))
    obtain ⟨r, hd, d1, d3, d4, d2⟩ := drain_transfer k con_handle pdu L s.gatt_bearer_mtu hL
      hm1 hm hmc (L / s.gatt_bearer_mtu + 1) _ hin rfl hfuel
    refine ⟨⟨(r.1, [Event.send_proxy_pdu con_handle frame,
        Event.request_can_send_now con_handle] ++ r.2), ?_, d1, ?_, ?_, ?_⟩, ?_⟩
    · rw [hall _ _ _ hr]
      exact (congrArg (Outcome.map _) hd).trans rfl
    · simp only [frames_of_append]
      show (frame :: frames_of r.2).length ≤ _
      rw [List.length_cons]
      exact Nat.succ_le_succ (le_trans d3 hfuel)
    · simp only [frames_of_append, requests_of_append]
      show 1 + requests_of r.2 + 1 = (frame :: frames_of r.2).length
      rw [List.length_cons, Nat.add_comm 1]
      exact congrArg (· + 1) d4
    · intro mem hpm
      simp only [frames_of_append]
      show (frame :: frames_of r.2).flatten = mem
      rw [List.flatten_cons, hfr mem hpm (hmemlen mem hpm)]
      exact (congrArg (mem.take s.gatt_bearer_mtu ++ ·) (d2 mem hpm (hmemlen mem hpm))).trans
        (List.take_append_drop _ _)
    · intro fuel
      obtain ⟨r2, hd2, hle⟩ := drain_offset k con_handle pdu L hL hc1 fuel _ hin hm hmc
      refine ⟨(r2.1, [Event.send_proxy_pdu con_handle frame,
        Event.request_can_send_now con_handle] ++ r2.2), ?_, hle⟩
      rw [hall _ _ _ hr]
      exact (congrArg (Outcome.map _) hd2).trans rfl

/-- Witness for C19: the 60-byte message `msg60` with the default MTU 23 on connection 1
(three frames, fuel `60 / 23 + 1 = 3`). -/
theorem C19_segmentation_terminates_witness :
    (∃ r, send_all stdPlatform (60 / sender23.gatt_bearer_mtu + 1) sender23 1
          (PduPtr.caller msg60) 60 = Outcome.ok r
      ∧ r.1.outgoing_ready = 0
      ∧ (frames_of r.2).length ≤ 60 / sender23.gatt_bearer_mtu + 2
      ∧ requests_of r.2 + 1 = (frames_of r.2).length
      ∧ (∀ mem, PduPtr.caller msg60 = PduPtr.caller mem → (frames_of r.2).flatten = mem))
    ∧ ∀ fuel, ∃ r, send_all stdPlatform fuel sender23 1 (PduPtr.caller msg60) 60 = Outcome.ok r
        ∧ r.1.segmentation_offset ≤ r.1.proxy_pdu_size :=
  C19_segmentation_terminates stdPlatform (by decide) sender23 1 (PduPtr.caller msg60) 60
    (by decide) (by decide) (by decide) (by decide) (by decide)
    (Or.inl ⟨msg60, rfl, by decide⟩)

/-- C19 (the claim as stated fails): the receiver `receiver23_two` holds the two-byte
message `[10, 11]` in the shared buffer, with stored MTU 23 and the valid handle 1.
Sending that message from the buffer, as `packet_handler` does with a finished message,
ends after one frame, but the frame is `[0, 11]`: the header byte stored at index 0 of
the segmentation buffer has replaced the first message byte before the copy. -/
theorem C19_message_in_shared_buffer_loses_first_byte :
    1 ≤ receiver23_two.gatt_bearer_mtu
    ∧ receiver23_two.gatt_bearer_mtu ≤ stdPlatform.MESH_PROV_MAX_PROXY_PDU
    ∧ (1 : Nat) ≠ stdPlatform.HCI_CON_HANDLE_INVALID
    ∧ readBytes (PduPtr.sar.deref receiver23_two.sar_buffer) 0 2 = [10, 11]
    ∧ (send_all stdPlatform (2 / receiver23_two.gatt_bearer_mtu + 1) receiver23_two 1
        PduPtr.sar 2).map (fun r => r.1.outgoing_ready) = Outcome.ok 0
    ∧ (send_all stdPlatform (2 / receiver23_two.gatt_bearer_mtu + 1) receiver23_two 1
        PduPtr.sar 2).map (fun r => frames_of r.2) = Outcome.ok [[0, 11]]
    ∧ (send_all stdPlatform (2 / receiver23_two.gatt_bearer_mtu + 1) receiver23_two 1
        PduPtr.sar 2).map (fun r => (frames_of r.2).flatten) ≠ Outcome.ok [10, 11]
    ∧ (run stdPlatform receiver23 [first2, complete3]).map (fun r => frames_of r.2)
        = Outcome.ok [[0, 11]] := by
  decide

end GattBearer
